import Mathlib

/-!
Verification of the DTNEX protocol engine (dtnex.c) against its
natural-language specification.

The development shallow-embeds the codec, authentication, replay cache,
metadata store, inbound pipeline and forwarding logic of src/dtnex.c.
Bytes are modelled as natural numbers below 256, buffers as lists of
bytes.  SHA-256 itself is an external library call (openssl) and is kept
abstract as a function parameter `sha : List Nat -> List Nat`; the HMAC
construction around it (calculateHmac, dtnex.c:1659) is embedded from
the source.  ION's CBOR primitives (cbor_encode_* / cbor_decode_*) are
not part of this repository; they are modelled from the spec (section
4.2: canonical CBOR tag-length-value encoding).  The manual decoders
(manualDecodeCborInteger, manualDecodeCborString, skipCborElement) are
embedded from dtnex.c itself.
-/

/-- Constant MAX_HASH_CACHE from dtnex.h:62 (replay cache capacity). -/
def MAX_HASH_CACHE : Nat := 5000

/-- Constant MAX_PLANS from dtnex.h:66 (metadata store / plan list capacity). -/
def MAX_PLANS : Nat := 100

/-- Constant MAX_CBOR_BUFFER from dtnex.h:76 (maximum CBOR message size). -/
def MAX_CBOR_BUFFER : Nat := 128

/-- Constant DTNEX_NONCE_SIZE from dtnex.h:74. -/
def DTNEX_NONCE_SIZE : Nat := 3

/-- Constant DTNEX_HMAC_SIZE from dtnex.h:75. -/
def DTNEX_HMAC_SIZE : Nat := 8

/-- Constant DTNEX_PROTOCOL_VERSION from dtnex.h:73. -/
def DTNEX_PROTOCOL_VERSION : Nat := 2

/-- Constant MAX_NODE_NAME_LENGTH from dtnex.h:78. -/
def MAX_NODE_NAME_LENGTH : Nat := 64

/-- Constant MAX_CONTACT_INFO_LENGTH from dtnex.h:79. -/
def MAX_CONTACT_INFO_LENGTH : Nat := 128

/-- Constant MAX_METADATA_LENGTH from dtnex.h:63. -/
def MAX_METADATA_LENGTH : Nat := 512

/-- Truncate or zero-pad a byte list to exactly `n` bytes (models copying
into a fixed-size zero-initialised C buffer). -/
def takePad (n : Nat) (l : List Nat) : List Nat :=
  (l ++ List.replicate n 0).take n

/-- Modelled from the spec: ION's CBOR head encoder (cbor_encode_* in ION's
cbor.c, not part of src/).  Canonical CBOR initial byte plus big-endian
argument, per section 4.2 of the spec. -/
def cborEncodeHead (major v : Nat) : List Nat :=
  if v < 24 then [32 * major + v]
  else if v < 256 then [32 * major + 24, v]
  else if v < 65536 then [32 * major + 25, v / 256 % 256, v % 256]
  else if v < 4294967296 then
    [32 * major + 26, v / 16777216 % 256, v / 65536 % 256, v / 256 % 256, v % 256]
  else
    [32 * major + 27, v / 72057594037927936 % 256, v / 281474976710656 % 256,
     v / 1099511627776 % 256, v / 4294967296 % 256, v / 16777216 % 256,
     v / 65536 % 256, v / 256 % 256, v % 256]

/-- Modelled from the spec: ION's cbor_encode_integer (unsigned, major type 0). -/
def cbor_encode_integer (v : Nat) : List Nat := cborEncodeHead 0 v

/-- Modelled from the spec: ION's cbor_encode_array_open (major type 4). -/
def cbor_encode_array_open (n : Nat) : List Nat := cborEncodeHead 4 n

/-- Modelled from the spec: ION's cbor_encode_text_string (major type 3). -/
def cbor_encode_text_string (s : List Nat) : List Nat :=
  cborEncodeHead 3 s.length ++ s

/-- Modelled from the spec: ION's cbor_encode_byte_string (major type 2). -/
def cbor_encode_byte_string (s : List Nat) : List Nat :=
  cborEncodeHead 2 s.length ++ s

/-- Key block preparation of calculateHmac (dtnex.c:1663-1672): a 64-byte
zeroed block receives the key, or SHA-256 of the key when longer than 64. -/
def hmacKeyPad (sha : List Nat → List Nat) (key : List Nat) : List Nat :=
  if 64 < key.length then takePad 64 (sha key)
  else key ++ List.replicate (64 - key.length) 0

/-- HMAC-SHA-256 before truncation, as computed by calculateHmac
(dtnex.c:1659-1693): outer hash of opad and the 32-byte inner hash. -/
def calculateHmacFull (sha : List Nat → List Nat) (message key : List Nat) : List Nat :=
  let keyPad := hmacKeyPad sha key
  let ipad := keyPad.map (fun b => b ^^^ 54)
  let opad := keyPad.map (fun b => b ^^^ 92)
  let inner := sha (ipad ++ message)
  sha (opad ++ takePad 32 inner)

/-- calculateHmac (dtnex.c:1659-1697): HMAC-SHA-256 truncated to the first
DTNEX_HMAC_SIZE = 8 bytes. -/
def calculateHmac (sha : List Nat → List Nat) (message key : List Nat) : List Nat :=
  takePad DTNEX_HMAC_SIZE (calculateHmacFull sha message key)

/-- verifyHmac (dtnex.c:1702-1726): recompute the truncated HMAC over the
message bytes and compare the 8 bytes with the received MAC. -/
def verifyHmac (sha : List Nat → List Nat) (message : List Nat)
    (receivedHmac : List Nat) (key : List Nat) : Bool :=
  calculateHmac sha message key == receivedHmac

/-- Configuration fields of DtnexConfig (dtnex.h:83-101) used by the codec
and protocol engine. -/
structure DtnexConfig where
  nodeId : Nat
  contactLifetime : Nat
  presSharedNetworkKey : List Nat
deriving DecidableEq

/-- ContactInfo (dtnex.h:119-123). -/
structure ContactInfo where
  nodeA : Nat
  nodeB : Nat
  duration : Nat
deriving DecidableEq

/-- StructuredMetadata (dtnex.h:126-133); the unused location field is
omitted, latitude and longitude are C ints (0 = not set). -/
structure StructuredMetadata where
  nodeId : Nat
  name : List Nat
  contact : List Nat
  latitude : Int
  longitude : Int
deriving DecidableEq

/-- NonceCache entry (dtnex.h:136-140). -/
structure NonceCacheEntry where
  nonce : List Nat
  origin : Nat
  timestamp : Nat
deriving DecidableEq

/-- NodeMetadata entry of the metadata store (dtnex.h:113-116). -/
structure NodeMetadata where
  nodeId : Nat
  metadata : List Nat
deriving DecidableEq

/-- Normalise a raw random draw to the 3 bytes produced by generateNonce
(dtnex.c:1650-1654): each byte reduced mod 256, exactly
DTNEX_NONCE_SIZE bytes. -/
def mkNonce (l : List Nat) : List Nat :=
  takePad DTNEX_NONCE_SIZE (l.map (fun b => b % 256))

/-- C conversion of a signed int to ION's unsigned 64-bit uvast. -/
def uvastOfInt (i : Int) : Nat :=
  (i % 18446744073709551616).toNat

/-- C cast of an unsigned long to a 32-bit signed int
(used at dtnex.c:2694-2695 and 2730-2731). -/
def toInt32 (n : Nat) : Int :=
  if n % 4294967296 < 2147483648 then ((n % 4294967296 : Nat) : Int)
  else ((n % 4294967296 : Nat) : Int) - 4294967296

/-- isNonceDuplicate (dtnex.c:1731-1739): linear scan of the replay cache
for the (origin, nonce) pair. -/
def isNonceDuplicate (cache : List NonceCacheEntry) (nonce : List Nat)
    (origin : Nat) : Bool :=
  cache.any (fun e => e.origin == origin && e.nonce == nonce)

/-- addNonceToCache (dtnex.c:1744-1760): append while below capacity;
once the fixed array is full, shift every entry left (dropping the
oldest) and write the new entry at the end. -/
def addNonceToCache (cache : List NonceCacheEntry) (nonce : List Nat)
    (origin : Nat) (now : Nat) : List NonceCacheEntry :=
  if cache.length < MAX_HASH_CACHE then
    cache ++ [⟨nonce, origin, now⟩]
  else
    cache.tail ++ [⟨nonce, origin, now⟩]

/-- Replace the metadata of the first store entry carrying `nodeId`
(the update branch of updateNodeMetadata, dtnex.c:683-693). -/
def replaceFirstMetadata (nodeId : Nat) (md : List Nat) :
    List NodeMetadata → List NodeMetadata
  | [] => []
  | e :: rest =>
    if e.nodeId == nodeId then ⟨e.nodeId, md.take (MAX_METADATA_LENGTH - 1)⟩ :: rest
    else e :: replaceFirstMetadata nodeId md rest

/-- updateNodeMetadata (dtnex.c:678-705): update the first existing entry
for the node, else append when below MAX_PLANS, else silently drop. -/
def updateNodeMetadata (store : List NodeMetadata) (nodeId : Nat)
    (md : List Nat) : List NodeMetadata :=
  if store.any (fun e => e.nodeId == nodeId) then
    replaceFirstMetadata nodeId md store
  else if store.length < MAX_PLANS then
    store ++ [⟨nodeId, md.take (MAX_METADATA_LENGTH - 1)⟩]
  else
    store

/-- Read side of the metadata store: first entry with the node id, as
scanned by updateNodeMetadata and the graph writer. -/
def getNodeMetadata (store : List NodeMetadata) (nodeId : Nat) : Option (List Nat) :=
  (store.find? (fun e => e.nodeId == nodeId)).map (fun e => e.metadata)

/-- Byte values of the one-character type strings "c" and "m". -/
def typeContactBytes : List Nat := [99]

/-- Byte value of the metadata type string "m". -/
def typeMetadataBytes : List Nat := [109]

/-- encodeCborContactMessage (dtnex.c:1766-1814): nine-element envelope
[version, "c", timestamp, expireTime, origin, from, nonce,
[nodeA, nodeB, duration], hmac]; origin = from = the local node, the
expire time is timestamp + contactLifetime, and the final field is the
truncated HMAC over every byte written before it.  The random draw of
generateNonce and the current wall-clock time are passed as
parameters. -/
def encodeCborContactMessage (sha : List Nat → List Nat) (config : DtnexConfig)
    (contact : ContactInfo) (nonceRaw : List Nat) (currentTime : Nat) : List Nat :=
  let expireTime := currentTime + config.contactLifetime
  let body :=
    cbor_encode_array_open 9 ++
    cbor_encode_integer DTNEX_PROTOCOL_VERSION ++
    cbor_encode_text_string typeContactBytes ++
    cbor_encode_integer currentTime ++
    cbor_encode_integer expireTime ++
    cbor_encode_integer config.nodeId ++
    cbor_encode_integer config.nodeId ++
    cbor_encode_byte_string (mkNonce nonceRaw) ++
    cbor_encode_array_open 3 ++
    cbor_encode_integer contact.nodeA ++
    cbor_encode_integer contact.nodeB ++
    cbor_encode_integer contact.duration
  body ++ cbor_encode_byte_string (calculateHmac sha body config.presSharedNetworkKey)

/-- encodeCborMetadataMessage (dtnex.c:1820-1879): like the contact
encoder but with type "m" and a payload of 3 elements
[nodeId, name, contact], extended to 5 with latitude and longitude when
BOTH scaled coordinates are nonzero (dtnex.c:1856-1870).  The signed
coordinates go through the C int-to-uvast conversion. -/
def encodeCborMetadataMessage (sha : List Nat → List Nat) (config : DtnexConfig)
    (metadata : StructuredMetadata) (nonceRaw : List Nat) (currentTime : Nat) : List Nat :=
  let expireTime := currentTime + config.contactLifetime
  let payload :=
    if metadata.latitude ≠ 0 ∧ metadata.longitude ≠ 0 then
      cbor_encode_array_open 5 ++
      cbor_encode_integer metadata.nodeId ++
      cbor_encode_text_string metadata.name ++
      cbor_encode_text_string metadata.contact ++
      cbor_encode_integer (uvastOfInt metadata.latitude) ++
      cbor_encode_integer (uvastOfInt metadata.longitude)
    else
      cbor_encode_array_open 3 ++
      cbor_encode_integer metadata.nodeId ++
      cbor_encode_text_string metadata.name ++
      cbor_encode_text_string metadata.contact
  let body :=
    cbor_encode_array_open 9 ++
    cbor_encode_integer DTNEX_PROTOCOL_VERSION ++
    cbor_encode_text_string typeMetadataBytes ++
    cbor_encode_integer currentTime ++
    cbor_encode_integer expireTime ++
    cbor_encode_integer config.nodeId ++
    cbor_encode_integer config.nodeId ++
    cbor_encode_byte_string (mkNonce nonceRaw) ++
    payload
  body ++ cbor_encode_byte_string (calculateHmac sha body config.presSharedNetworkKey)

/-- Call of the engine into the external DTN router (rfx_insert_contact and
rfx_insert_range, dtnex.c:2885-2910).  The constant confidence argument
1.0 is a C float and is left implicit. -/
inductive RouterCall where
  | insertContact (regionNbr fromTime toTime src dst xmitRate : Nat)
  | insertRange (fromTime toTime src dst owlt : Nat)
deriving DecidableEq

/-- One outbound bundle handed to sendCborBundle: destination node and
payload bytes. -/
structure Send where
  dest : Nat
  payload : List Nat
deriving DecidableEq

/-- Envelope bytes built inside the forwarding loop of
forwardCborContactMessage (dtnex.c:3018-3044): origin, timestamp and
expire time are preserved, from becomes the local node, and the nonce
written is the FRESH draw of generateNonce made in the loop (the
originalNonce parameter is never used). -/
def forwardContactEnvelopeBytes (sha : List Nat → List Nat) (config : DtnexConfig)
    (timestamp expireTime origin : Nat) (nonce3 : List Nat)
    (contact : ContactInfo) : List Nat :=
  let body :=
    cbor_encode_array_open 9 ++
    cbor_encode_integer DTNEX_PROTOCOL_VERSION ++
    cbor_encode_text_string typeContactBytes ++
    cbor_encode_integer timestamp ++
    cbor_encode_integer expireTime ++
    cbor_encode_integer origin ++
    cbor_encode_integer config.nodeId ++
    cbor_encode_byte_string nonce3 ++
    cbor_encode_array_open 3 ++
    cbor_encode_integer contact.nodeA ++
    cbor_encode_integer contact.nodeB ++
    cbor_encode_integer contact.duration
  body ++ cbor_encode_byte_string (calculateHmac sha body config.presSharedNetworkKey)

/-- forwardCborContactMessage (dtnex.c:2987-3053): for every neighbor in
the plan snapshot except the origin, the immediate sender and the local
node, emit one rebuilt envelope.  `freshNonce i` is the random draw made
by generateNonce in the iteration for plan index `i`; `originalNonce` is
the nonce of the received envelope, which the source accepts as a
parameter but never uses. -/
def forwardCborContactMessage (sha : List Nat → List Nat) (config : DtnexConfig)
    (plans : List Nat) (freshNonce : Nat → List Nat) (originalNonce : List Nat)
    (timestamp expireTime origin fromNode : Nat) (contact : ContactInfo) : List Send :=
  plans.enum.filterMap fun p =>
    if p.2 == origin || p.2 == fromNode || p.2 == config.nodeId then none
    else some ⟨p.2, forwardContactEnvelopeBytes sha config timestamp expireTime origin
                      (mkNonce (freshNonce p.1)) contact⟩

/-- Envelope bytes built inside the forwarding loop of
forwardCborMetadataMessage (dtnex.c:3086-3122).  Note the payload is
extended to 5 elements when EITHER coordinate is nonzero
(dtnex.c:3105, a disjunction, unlike the originate encoder). -/
def forwardMetadataEnvelopeBytes (sha : List Nat → List Nat) (config : DtnexConfig)
    (timestamp expireTime origin : Nat) (nonce3 : List Nat)
    (metadata : StructuredMetadata) : List Nat :=
  let payload :=
    if metadata.latitude ≠ 0 ∨ metadata.longitude ≠ 0 then
      cbor_encode_array_open 5 ++
      cbor_encode_integer metadata.nodeId ++
      cbor_encode_text_string metadata.name ++
      cbor_encode_text_string metadata.contact ++
      cbor_encode_integer (uvastOfInt metadata.latitude) ++
      cbor_encode_integer (uvastOfInt metadata.longitude)
    else
      cbor_encode_array_open 3 ++
      cbor_encode_integer metadata.nodeId ++
      cbor_encode_text_string metadata.name ++
      cbor_encode_text_string metadata.contact
  let body :=
    cbor_encode_array_open 9 ++
    cbor_encode_integer DTNEX_PROTOCOL_VERSION ++
    cbor_encode_text_string typeMetadataBytes ++
    cbor_encode_integer timestamp ++
    cbor_encode_integer expireTime ++
    cbor_encode_integer origin ++
    cbor_encode_integer config.nodeId ++
    cbor_encode_byte_string nonce3 ++
    payload
  body ++ cbor_encode_byte_string (calculateHmac sha body config.presSharedNetworkKey)

/-- forwardCborMetadataMessage (dtnex.c:3058-3130): mirror of the contact
forwarder for metadata envelopes; it equally regenerates the nonce and
ignores `originalNonce`. -/
def forwardCborMetadataMessage (sha : List Nat → List Nat) (config : DtnexConfig)
    (plans : List Nat) (freshNonce : Nat → List Nat) (originalNonce : List Nat)
    (timestamp expireTime origin fromNode : Nat) (metadata : StructuredMetadata) : List Send :=
  plans.enum.filterMap fun p =>
    if p.2 == origin || p.2 == fromNode || p.2 == config.nodeId then none
    else some ⟨p.2, forwardMetadataEnvelopeBytes sha config timestamp expireTime origin
                      (mkNonce (freshNonce p.1)) metadata⟩

/-- processCborContactMessage (dtnex.c:2847-2940): silently skip own
messages; otherwise insert both contact directions over
[timestamp, timestamp + duration * 60] with xmit rate 100000; only when
BOTH insertions return 0 are the two 1-second ranges inserted
(dtnex.c:2893-2912); finally forward.  `router` gives the return code
of each rfx call; the first component of the result lists the router
calls actually issued, in order. -/
def processCborContactMessage (sha : List Nat → List Nat) (config : DtnexConfig)
    (router : RouterCall → Int) (plans : List Nat) (freshNonce : Nat → List Nat)
    (nonce : List Nat) (timestamp expireTime origin fromNode : Nat)
    (contact : ContactInfo) : List RouterCall × List Send :=
  if origin == config.nodeId then ([], [])
  else
    let startTime := timestamp
    let endTime := startTime + contact.duration * 60
    let c1 := RouterCall.insertContact 1 startTime endTime contact.nodeA contact.nodeB 100000
    let c2 := RouterCall.insertContact 1 startTime endTime contact.nodeB contact.nodeA 100000
    let result1 := router c1
    let result2 := router c2
    let rangeCalls :=
      if result1 = 0 ∧ result2 = 0 then
        [RouterCall.insertRange startTime endTime contact.nodeA contact.nodeB 1,
         RouterCall.insertRange startTime endTime contact.nodeB contact.nodeA 1]
      else []
    (c1 :: c2 :: rangeCalls,
     forwardCborContactMessage sha config plans freshNonce nonce
       timestamp expireTime origin fromNode contact)

/-- processCborMetadataMessage (dtnex.c:2945-2982): silently skip own
messages; otherwise update the metadata store for payload.nodeId and
forward.  The store update is recorded as the (nodeId, record) pair
handed to updateNodeMetadata; the C float formatting of the stored
string is outside the embedded core. -/
def processCborMetadataMessage (sha : List Nat → List Nat) (config : DtnexConfig)
    (plans : List Nat) (freshNonce : Nat → List Nat)
    (nonce : List Nat) (timestamp expireTime origin fromNode : Nat)
    (metadata : StructuredMetadata) : List (Nat × StructuredMetadata) × List Send :=
  if origin == config.nodeId then ([], [])
  else
    ([(metadata.nodeId, metadata)],
     forwardCborMetadataMessage sha config plans freshNonce nonce
       timestamp expireTime origin fromNode metadata)

/-- Modelled from the spec: ION's CBOR head decoder (cbor.c, not part of
src/).  Reads the initial byte and the big-endian argument of the
announced width; cursor style, returning (major, value, rest). -/
def cborDecodeHeadAny : List Nat → Option (Nat × Nat × List Nat)
  | [] => none
  | x :: rest =>
    if x % 32 < 24 then some (x / 32, x % 32, rest)
    else if x % 32 == 24 then
      match rest with
      | b0 :: r => some (x / 32, b0, r)
      | _ => none
    else if x % 32 == 25 then
      match rest with
      | b0 :: b1 :: r => some (x / 32, 256 * b0 + b1, r)
      | _ => none
    else if x % 32 == 26 then
      match rest with
      | b0 :: b1 :: b2 :: b3 :: r =>
          some (x / 32, 16777216 * b0 + 65536 * b1 + 256 * b2 + b3, r)
      | _ => none
    else if x % 32 == 27 then
      match rest with
      | b0 :: b1 :: b2 :: b3 :: b4 :: b5 :: b6 :: b7 :: r =>
          some (x / 32, 72057594037927936 * b0 + 281474976710656 * b1 +
                1099511627776 * b2 + 4294967296 * b3 + 16777216 * b4 +
                65536 * b5 + 256 * b6 + b7, r)
      | _ => none
    else none

/-- Modelled from the spec: ION's cbor_decode_integer with class CborAny
(major type 0, any width). -/
def cbor_decode_integer (b : List Nat) : Option (Nat × List Nat) :=
  match cborDecodeHeadAny b with
  | none => none
  | some (major, v, r) => if major == 0 then some (v, r) else none

/-- Modelled from the spec: ION's cbor_decode_array_open (major type 4). -/
def cbor_decode_array_open (b : List Nat) : Option (Nat × List Nat) :=
  match cborDecodeHeadAny b with
  | none => none
  | some (major, v, r) => if major == 4 then some (v, r) else none

/-- Modelled from the spec: ION's cbor_decode_text_string into a buffer of
capacity `cap` (major type 3; fails when the announced length exceeds
the caller's buffer). -/
def cbor_decode_text_string (cap : Nat) (b : List Nat) : Option (List Nat × List Nat) :=
  match cborDecodeHeadAny b with
  | none => none
  | some (major, len, r) =>
    if major == 3 then
      if len ≤ cap ∧ len ≤ r.length then some (r.take len, r.drop len) else none
    else none

/-- Modelled from the spec: ION's cbor_decode_byte_string into a buffer of
capacity `cap` (major type 2). -/
def cbor_decode_byte_string (cap : Nat) (b : List Nat) : Option (List Nat × List Nat) :=
  match cborDecodeHeadAny b with
  | none => none
  | some (major, len, r) =>
    if major == 2 then
      if len ≤ cap ∧ len ≤ r.length then some (r.take len, r.drop len) else none
    else none

/-- manualDecodeCborInteger (dtnex.c:2351-2409): accepts only major type 0;
widths up to 8 bytes, but an 8-byte argument keeps only its lower 32
bits (dtnex.c:2396-2405). -/
def manualDecodeCborInteger : List Nat → Option (Nat × List Nat)
  | [] => none
  | x :: rest =>
    if x / 32 ≠ 0 then none
    else if x % 32 < 24 then some (x % 32, rest)
    else if x % 32 == 24 then
      match rest with
      | b0 :: r => some (b0, r)
      | _ => none
    else if x % 32 == 25 then
      match rest with
      | b0 :: b1 :: r => some (256 * b0 + b1, r)
      | _ => none
    else if x % 32 == 26 then
      match rest with
      | b0 :: b1 :: b2 :: b3 :: r =>
          some (16777216 * b0 + 65536 * b1 + 256 * b2 + b3, r)
      | _ => none
    else if x % 32 == 27 then
      match rest with
      | _ :: _ :: _ :: _ :: b4 :: b5 :: b6 :: b7 :: r =>
          some (16777216 * b4 + 65536 * b5 + 256 * b6 + b7, r)
      | _ => none
    else none

/-- manualDecodeCborString (dtnex.c:2295-2346): accepts only major type 3
with widths up to 2 length bytes; fails when the announced length does
not fit the remaining bytes or reaches the destination capacity
`maxLen` (the C check is stringLen >= maxLen). -/
def manualDecodeCborString (maxLen : Nat) : List Nat → Option (List Nat × List Nat)
  | [] => none
  | x :: rest =>
    if x / 32 ≠ 3 then none
    else
      let lenAndRest : Option (Nat × List Nat) :=
        if x % 32 < 24 then some (x % 32, rest)
        else if x % 32 == 24 then
          match rest with
          | b0 :: r => some (b0, r)
          | _ => none
        else if x % 32 == 25 then
          match rest with
          | b0 :: b1 :: r => some (256 * b0 + b1, r)
          | _ => none
        else none
      match lenAndRest with
      | none => none
      | some (len, r) =>
        if r.length < len ∨ maxLen ≤ len then none
        else some (r.take len, r.drop len)

/-- Big-endian byte fold used by skipCborElement when reading an extended
string length. -/
def beNat (l : List Nat) : Nat := l.foldl (fun a b => 256 * a + b) 0

/-- skipCborElement (dtnex.c:2411-2473): skip one CBOR element: the head,
its width bytes, and for string types (major 2 and 3) also the content
bytes announced by the length. -/
def skipCborElement : List Nat → Option (List Nat)
  | [] => none
  | x :: rest =>
    let major := x / 32
    let ai := x % 32
    if 28 ≤ ai then none
    else
      let w := if ai == 24 then 1 else if ai == 25 then 2
               else if ai == 26 then 4 else if ai == 27 then 8 else 0
      if major == 2 ∨ major == 3 then
        if ai < 24 then
          if rest.length < ai then none else some (rest.drop ai)
        else
          if rest.length < w then none
          else
            let len := beNat (rest.take w)
            let r2 := rest.drop w
            if r2.length < len then none else some (r2.drop len)
      else
        if rest.length < w then none else some (rest.drop w)

/-- Iterated skipCborElement, as the skip loops of decodeCborMessage
(dtnex.c:2641-2646 and 2748-2753). -/
def skipNElements : Nat → List Nat → Option (List Nat)
  | 0, b => some b
  | n + 1, b =>
    match skipCborElement b with
    | none => none
    | some r => skipNElements n r

/-- Payload record extracted by decodeCborMessage before the skip loops. -/
inductive ExtractedData where
  | contact (c : ContactInfo)
  | metadata (m : StructuredMetadata)
deriving DecidableEq

/-- Envelope start of decodeCborMessage (dtnex.c:2491-2529): outer array of
exactly 9 elements, version 2, one-character type string, timestamp and
expire time. -/
def parseEnvelopeStart (b : List Nat) : Option (List Nat × Nat × Nat × List Nat) :=
  match cbor_decode_array_open b with
  | none => none
  | some (arraySize, r1) =>
    if arraySize ≠ 9 then none
    else match cbor_decode_integer r1 with
    | none => none
    | some (version, r2) =>
      if version ≠ DTNEX_PROTOCOL_VERSION then none
      else match cbor_decode_text_string 1 r2 with
      | none => none
      | some (msgType, r3) =>
        match cbor_decode_integer r3 with
        | none => none
        | some (timestamp, r4) =>
          match cbor_decode_integer r4 with
          | none => none
          | some (expireTime, r5) => some (msgType, timestamp, expireTime, r5)

/-- Fields 5-7 of decodeCborMessage (dtnex.c:2538-2559): origin, from, and
a nonce byte string that must be exactly DTNEX_NONCE_SIZE bytes. -/
def parseOriginFromNonce (b : List Nat) : Option (Nat × Nat × List Nat × List Nat) :=
  match cbor_decode_integer b with
  | none => none
  | some (origin, r1) =>
    match cbor_decode_integer r1 with
    | none => none
    | some (fromNode, r2) =>
      match cbor_decode_byte_string DTNEX_NONCE_SIZE r2 with
      | none => none
      | some (nonce, r3) =>
        if nonce.length ≠ DTNEX_NONCE_SIZE then none
        else some (origin, fromNode, nonce, r3)

/-- Data section of decodeCborMessage (dtnex.c:2589-2760): manual array
header decode (single-byte header only), extraction of the payload by
message type on a copy of the cursor, then skipping of the elements so
the cursor lands on the MAC field.  Returns the extracted payload
(none mirrors hasExtractedData == 0) and the remaining bytes. -/
def parseDataSection (msgType : List Nat) (origin : Nat) (b : List Nat) :
    Option (Option ExtractedData × List Nat) :=
  match b with
  | [] => none
  | x :: rest =>
    if x / 32 ≠ 4 then none
    else
      let size := x % 32
      if 24 ≤ size then none
      else if msgType == typeContactBytes then
        let ext : Option ExtractedData :=
          match manualDecodeCborInteger rest with
          | none => none
          | some (a, r1) =>
            match manualDecodeCborInteger r1 with
            | none => none
            | some (bb, r2) =>
              match manualDecodeCborInteger r2 with
              | none => none
              | some (d, _) => some (.contact ⟨a, bb, d % 65536⟩)
        match skipNElements (min size 3) rest with
        | none => none
        | some r => some (ext, r)
      else if msgType == typeMetadataBytes then
        let ext : Option ExtractedData :=
          if size == 3 then
            match manualDecodeCborInteger rest with
            | none => none
            | some (nid, r1) =>
              match manualDecodeCborString (MAX_NODE_NAME_LENGTH - 1) r1 with
              | none => none
              | some (nm, r2) =>
                match manualDecodeCborString (MAX_CONTACT_INFO_LENGTH - 1) r2 with
                | none => none
                | some (ct, _) => some (.metadata ⟨nid, nm, ct, 0, 0⟩)
          else if size == 5 then
            match manualDecodeCborInteger rest with
            | none => none
            | some (nid, r1) =>
              match manualDecodeCborString (MAX_NODE_NAME_LENGTH - 1) r1 with
              | none => none
              | some (nm, r2) =>
                match manualDecodeCborString (MAX_CONTACT_INFO_LENGTH - 1) r2 with
                | none => none
                | some (ct, r3) =>
                  match manualDecodeCborInteger r3 with
                  | none => none
                  | some (la, r4) =>
                    match manualDecodeCborInteger r4 with
                    | none => none
                    | some (lo, _) =>
                      some (.metadata ⟨nid, nm, ct, toInt32 la, toInt32 lo⟩)
          else if size == 2 then
            match manualDecodeCborString (MAX_NODE_NAME_LENGTH - 1) rest with
            | none => none
            | some (nm, r1) =>
              match manualDecodeCborString (MAX_CONTACT_INFO_LENGTH - 1) r1 with
              | none => none
              | some (ct, _) => some (.metadata ⟨origin, nm, ct, 0, 0⟩)
          else if size == 4 then
            match manualDecodeCborString (MAX_NODE_NAME_LENGTH - 1) rest with
            | none => none
            | some (nm, r1) =>
              match manualDecodeCborString (MAX_CONTACT_INFO_LENGTH - 1) r1 with
              | none => none
              | some (ct, r2) =>
                match manualDecodeCborInteger r2 with
                | none => none
                | some (la, r3) =>
                  match manualDecodeCborInteger r3 with
                  | none => none
                  | some (lo, _) =>
                    some (.metadata ⟨origin, nm, ct, toInt32 la, toInt32 lo⟩)
          else none
        match skipNElements size rest with
        | none => none
        | some r => some (ext, r)
      else none

/-- MAC field decode of decodeCborMessage (dtnex.c:2763-2795): a byte
string with single-byte header whose announced length must be exactly
DTNEX_HMAC_SIZE. -/
def parseMacField (b : List Nat) : Option (List Nat × List Nat) :=
  match b with
  | [] => none
  | x :: rest =>
    if x / 32 == 2 then
      if x % 32 ≠ DTNEX_HMAC_SIZE then none
      else if rest.length < DTNEX_HMAC_SIZE then none
      else some (rest.take DTNEX_HMAC_SIZE, rest.drop DTNEX_HMAC_SIZE)
    else none

/-- Return point of the inbound handler: which check the message reached.
The C function collapses every rejection to -1; the constructor records
which return statement fired. -/
inductive Outcome where
  | malformed
  | expired
  | replay
  | authFailed
  | extractFailed
  | processedContact
  | processedMetadata
deriving DecidableEq

/-- State and effects of one run of the inbound handler: final replay
cache, router calls issued, metadata store updates and outbound
forwards. -/
structure DecodeResult where
  outcome : Outcome
  cache : List NonceCacheEntry
  routerCalls : List RouterCall
  metaUpdates : List (Nat × StructuredMetadata)
  sends : List Send
deriving DecidableEq

/-- decodeCborMessage (dtnex.c:2478-2842): the inbound pipeline.  Parse the
envelope start, discard when now > expireTime (dtnex.c:2531-2536),
parse origin / from / nonce, discard on a replay-cache hit
(dtnex.c:2565-2569), parse and skip the data section, decode the MAC
field, verify the truncated HMAC over every byte before the MAC field
(dtnex.c:2802-2808), add the nonce to the cache (dtnex.c:2813), then
dispatch to the type-specific processing with its router calls, store
updates and forwards. -/
def decodeCborMessage (sha : List Nat → List Nat) (config : DtnexConfig)
    (router : RouterCall → Int) (plans : List Nat) (freshNonce : Nat → List Nat)
    (now : Nat) (cache : List NonceCacheEntry) (buffer : List Nat) : DecodeResult :=
  match parseEnvelopeStart buffer with
  | none => ⟨.malformed, cache, [], [], []⟩
  | some (msgType, timestamp, expireTime, r1) =>
    if now > expireTime then ⟨.expired, cache, [], [], []⟩
    else match parseOriginFromNonce r1 with
    | none => ⟨.malformed, cache, [], [], []⟩
    | some (origin, fromNode, nonce, r2) =>
      if isNonceDuplicate cache nonce origin then ⟨.replay, cache, [], [], []⟩
      else match parseDataSection msgType origin r2 with
      | none => ⟨.malformed, cache, [], [], []⟩
      | some (ext, r3) =>
        match parseMacField r3 with
        | none => ⟨.malformed, cache, [], [], []⟩
        | some (receivedHmac, _) =>
          let macInput := buffer.take (buffer.length - r3.length)
          if verifyHmac sha macInput receivedHmac config.presSharedNetworkKey then
            let cache2 := addNonceToCache cache nonce origin now
            match ext with
            | none => ⟨.extractFailed, cache2, [], [], []⟩
            | some (.contact c) =>
              let eff := processCborContactMessage sha config router plans freshNonce
                           nonce timestamp expireTime origin fromNode c
              ⟨.processedContact, cache2, eff.1, [], eff.2⟩
            | some (.metadata m) =>
              let eff := processCborMetadataMessage sha config plans freshNonce
                           nonce timestamp expireTime origin fromNode m
              ⟨.processedMetadata, cache2, [], eff.1, eff.2⟩
          else ⟨.authFailed, cache, [], [], []⟩

/-- Bytes of an originated contact envelope before its MAC field: the first
eight CBOR fields and the payload array written by
encodeCborContactMessage (dtnex.c:1778-1805), named so theorems can
speak about the MAC-covered range. -/
def contactEnvelopeBody (origin contactLifetime : Nat) (contact : ContactInfo)
    (nonceRaw : List Nat) (currentTime : Nat) : List Nat :=
  cbor_encode_array_open 9 ++
  cbor_encode_integer DTNEX_PROTOCOL_VERSION ++
  cbor_encode_text_string typeContactBytes ++
  cbor_encode_integer currentTime ++
  cbor_encode_integer (currentTime + contactLifetime) ++
  cbor_encode_integer origin ++
  cbor_encode_integer origin ++
  cbor_encode_byte_string (mkNonce nonceRaw) ++
  cbor_encode_array_open 3 ++
  cbor_encode_integer contact.nodeA ++
  cbor_encode_integer contact.nodeB ++
  cbor_encode_integer contact.duration

/-- Bytes of an originated metadata envelope before its MAC field
(encodeCborMetadataMessage, dtnex.c:1832-1870). -/
def metadataEnvelopeBody (origin contactLifetime : Nat) (metadata : StructuredMetadata)
    (nonceRaw : List Nat) (currentTime : Nat) : List Nat :=
  cbor_encode_array_open 9 ++
  cbor_encode_integer DTNEX_PROTOCOL_VERSION ++
  cbor_encode_text_string typeMetadataBytes ++
  cbor_encode_integer currentTime ++
  cbor_encode_integer (currentTime + contactLifetime) ++
  cbor_encode_integer origin ++
  cbor_encode_integer origin ++
  cbor_encode_byte_string (mkNonce nonceRaw) ++
  (if metadata.latitude ≠ 0 ∧ metadata.longitude ≠ 0 then
    cbor_encode_array_open 5 ++
    cbor_encode_integer metadata.nodeId ++
    cbor_encode_text_string metadata.name ++
    cbor_encode_text_string metadata.contact ++
    cbor_encode_integer (uvastOfInt metadata.latitude) ++
    cbor_encode_integer (uvastOfInt metadata.longitude)
  else
    cbor_encode_array_open 3 ++
    cbor_encode_integer metadata.nodeId ++
    cbor_encode_text_string metadata.name ++
    cbor_encode_text_string metadata.contact)

theorem takePad_length (n : Nat) (l : List Nat) : (takePad n l).length = n := by
  simp [takePad]

theorem takePad_of_le {n : Nat} {l : List Nat} (h : n ≤ l.length) :
    takePad n l = l.take n := by
  simp [takePad, List.take_append_of_le_length h]

theorem calculateHmac_length (sha : List Nat → List Nat) (m k : List Nat) :
    (calculateHmac sha m k).length = DTNEX_HMAC_SIZE := takePad_length _ _

theorem mkNonce_length (l : List Nat) : (mkNonce l).length = DTNEX_NONCE_SIZE :=
  takePad_length _ _

theorem cborDecodeHeadAny_encodeHead (m v : Nat) (rest : List Nat)
    (hm : m < 8) (hv : v < 18446744073709551616) :
    cborDecodeHeadAny (cborEncodeHead m v ++ rest) = some (m, v, rest) := by
  unfold cborEncodeHead
  by_cases h1 : v < 24
  · rw [if_pos h1]
    simp only [List.cons_append, List.nil_append, cborDecodeHeadAny]
    rw [show (32 * m + v) % 32 = v from by omega, show (32 * m + v) / 32 = m from by omega]
    simp [h1]
  · rw [if_neg h1]
    by_cases h2 : v < 256
    · rw [if_pos h2]
      simp only [List.cons_append, List.nil_append, cborDecodeHeadAny]
      rw [show (32 * m + 24) % 32 = 24 from by omega,
          show (32 * m + 24) / 32 = m from by omega]
      norm_num
    · rw [if_neg h2]
      by_cases h3 : v < 65536
      · rw [if_pos h3]
        simp only [List.cons_append, List.nil_append, cborDecodeHeadAny]
        rw [show (32 * m + 25) % 32 = 25 from by omega,
            show (32 * m + 25) / 32 = m from by omega]
        norm_num
        omega
      · rw [if_neg h3]
        by_cases h4 : v < 4294967296
        · rw [if_pos h4]
          simp only [List.cons_append, List.nil_append, cborDecodeHeadAny]
          rw [show (32 * m + 26) % 32 = 26 from by omega,
              show (32 * m + 26) / 32 = m from by omega]
          norm_num
          omega
        · rw [if_neg h4]
          simp only [List.cons_append, List.nil_append, cborDecodeHeadAny]
          rw [show (32 * m + 27) % 32 = 27 from by omega,
              show (32 * m + 27) / 32 = m from by omega]
          norm_num
          omega

theorem cbor_decode_integer_encode (v : Nat) (rest : List Nat)
    (hv : v < 18446744073709551616) :
    cbor_decode_integer (cbor_encode_integer v ++ rest) = some (v, rest) := by
  unfold cbor_decode_integer cbor_encode_integer
  rw [cborDecodeHeadAny_encodeHead 0 v rest (by norm_num) hv]
  rfl

theorem cbor_decode_array_open_encode (n : Nat) (rest : List Nat)
    (hn : n < 18446744073709551616) :
    cbor_decode_array_open (cbor_encode_array_open n ++ rest) = some (n, rest) := by
  unfold cbor_decode_array_open cbor_encode_array_open
  rw [cborDecodeHeadAny_encodeHead 4 n rest (by norm_num) hn]
  rfl

theorem cbor_decode_text_string_encode (cap : Nat) (s rest : List Nat)
    (hcap : s.length ≤ cap) (hlen : s.length < 18446744073709551616) :
    cbor_decode_text_string cap (cbor_encode_text_string s ++ rest) = some (s, rest) := by
  unfold cbor_decode_text_string cbor_encode_text_string
  rw [List.append_assoc,
      cborDecodeHeadAny_encodeHead 3 s.length (s ++ rest) (by norm_num) hlen]
  have h1 : s.length ≤ (s ++ rest).length := by simp
  simp only [beq_self_eq_true, if_true, if_pos (And.intro hcap h1), List.take_left,
    List.drop_left]

theorem cbor_decode_byte_string_encode (cap : Nat) (s rest : List Nat)
    (hcap : s.length ≤ cap) (hlen : s.length < 18446744073709551616) :
    cbor_decode_byte_string cap (cbor_encode_byte_string s ++ rest) = some (s, rest) := by
  unfold cbor_decode_byte_string cbor_encode_byte_string
  rw [List.append_assoc,
      cborDecodeHeadAny_encodeHead 2 s.length (s ++ rest) (by norm_num) hlen]
  have h1 : s.length ≤ (s ++ rest).length := by simp
  simp only [beq_self_eq_true, if_true, if_pos (And.intro hcap h1), List.take_left,
    List.drop_left]

theorem manualDecodeCborInteger_encode (v : Nat) (rest : List Nat)
    (hv : v < 18446744073709551616) :
    manualDecodeCborInteger (cbor_encode_integer v ++ rest) =
      some (v % 4294967296, rest) := by
  unfold cbor_encode_integer cborEncodeHead
  by_cases h1 : v < 24
  · rw [if_pos h1]
    simp only [List.cons_append, List.nil_append, manualDecodeCborInteger]
    norm_num
    rw [show v % 32 = v from by omega]
    simp [h1]
    omega
  · rw [if_neg h1]
    by_cases h2 : v < 256
    · rw [if_pos h2]
      simp only [List.cons_append, List.nil_append, manualDecodeCborInteger]
      norm_num
      omega
    · rw [if_neg h2]
      by_cases h3 : v < 65536
      · rw [if_pos h3]
        simp only [List.cons_append, List.nil_append, manualDecodeCborInteger]
        norm_num
        omega
      · rw [if_neg h3]
        by_cases h4 : v < 4294967296
        · rw [if_pos h4]
          simp only [List.cons_append, List.nil_append, manualDecodeCborInteger]
          norm_num
          omega
        · rw [if_neg h4]
          simp only [List.cons_append, List.nil_append, manualDecodeCborInteger]
          norm_num
          omega

theorem manualDecodeCborString_encode (maxLen : Nat) (s rest : List Nat)
    (hcap : s.length < maxLen) (hlen : s.length < 65536) :
    manualDecodeCborString maxLen (cbor_encode_text_string s ++ rest) =
      some (s, rest) := by
  have hfit : ¬ ((s ++ rest).length < s.length ∨ maxLen ≤ s.length) :=
    not_or.mpr ⟨by simp only [List.length_append]; omega, by omega⟩
  unfold cbor_encode_text_string cborEncodeHead
  by_cases h1 : s.length < 24
  · rw [if_pos h1]
    simp only [List.cons_append, List.nil_append, List.append_assoc,
      manualDecodeCborString]
    rw [show (32 * 3 + s.length) / 32 = 3 from by omega,
        show (32 * 3 + s.length) % 32 = s.length from by omega]
    simp only [ne_eq, not_true_eq_false, if_false, if_pos h1, if_neg hfit,
      List.take_left, List.drop_left]
  · rw [if_neg h1]
    by_cases h2 : s.length < 256
    · rw [if_pos h2]
      simp only [List.cons_append, List.nil_append, List.append_assoc,
        manualDecodeCborString]
      rw [show (32 * 3 + 24) / 32 = 3 from by omega,
          show (32 * 3 + 24) % 32 = 24 from by omega]
      simp only [ne_eq, not_true_eq_false, if_false, if_neg (by omega : ¬ (24 : Nat) < 24),
        Nat.reduceBEq, if_true, if_neg hfit, List.take_left, List.drop_left]
    · rw [if_neg h2, if_pos hlen]
      simp only [List.cons_append, List.nil_append, List.append_assoc,
        manualDecodeCborString]
      rw [show (32 * 3 + 25) / 32 = 3 from by omega,
          show (32 * 3 + 25) % 32 = 25 from by omega]
      simp only [ne_eq, not_true_eq_false, if_false,
        if_neg (by omega : ¬ (25 : Nat) < 24), Nat.reduceBEq, if_false, if_true]
      rw [show 256 * (s.length / 256 % 256) + s.length % 256 = s.length from by omega]
      simp only [Bool.false_eq_true, if_false, if_neg hfit, List.take_left,
        List.drop_left]

theorem skipCborElement_encode_integer (v : Nat) (rest : List Nat)
    (hv : v < 18446744073709551616) :
    skipCborElement (cbor_encode_integer v ++ rest) = some rest := by
  unfold cbor_encode_integer cborEncodeHead
  by_cases h1 : v < 24
  · rw [if_pos h1]
    simp only [List.cons_append, List.nil_append, skipCborElement]
    rw [show (32 * 0 + v) % 32 = v from by omega,
        show (32 * 0 + v) / 32 = 0 from by omega]
    simp only [if_neg (by omega : ¬ 28 ≤ v)]
    norm_num
    rw [if_neg (by omega : ¬ v = 24), if_neg (by omega : ¬ v = 25),
        if_neg (by omega : ¬ v = 26), if_neg (by omega : ¬ v = 27)]
    simp
  · rw [if_neg h1]
    by_cases h2 : v < 256
    · rw [if_pos h2]
      simp only [List.cons_append, List.nil_append, skipCborElement]
      rw [show (32 * 0 + 24) % 32 = 24 from by omega,
          show (32 * 0 + 24) / 32 = 0 from by omega]
      norm_num
    · rw [if_neg h2]
      by_cases h3 : v < 65536
      · rw [if_pos h3]
        simp only [List.cons_append, List.nil_append, skipCborElement]
        rw [show (32 * 0 + 25) % 32 = 25 from by omega,
            show (32 * 0 + 25) / 32 = 0 from by omega]
        norm_num
      · rw [if_neg h3]
        by_cases h4 : v < 4294967296
        · rw [if_pos h4]
          simp only [List.cons_append, List.nil_append, skipCborElement]
          rw [show (32 * 0 + 26) % 32 = 26 from by omega,
              show (32 * 0 + 26) / 32 = 0 from by omega]
          norm_num
        · rw [if_neg h4]
          simp only [List.cons_append, List.nil_append, skipCborElement]
          rw [show (32 * 0 + 27) % 32 = 27 from by omega,
              show (32 * 0 + 27) / 32 = 0 from by omega]
          norm_num

theorem skipCborElement_encode_text (s rest : List Nat)
    (hlen : s.length < 18446744073709551616) :
    skipCborElement (cbor_encode_text_string s ++ rest) = some rest := by
  have hfit : ¬ ((s ++ rest).length < s.length) := by
    simp only [List.length_append]; omega
  unfold cbor_encode_text_string cborEncodeHead
  by_cases h1 : s.length < 24
  · rw [if_pos h1]
    simp only [List.cons_append, List.nil_append, List.append_assoc, skipCborElement]
    rw [show (32 * 3 + s.length) % 32 = s.length from by omega,
        show (32 * 3 + s.length) / 32 = 3 from by omega]
    simp only [if_neg (by omega : ¬ 28 ≤ s.length), if_pos h1, if_neg hfit,
      List.drop_left]
    norm_num
  · rw [if_neg h1]
    by_cases h2 : s.length < 256
    · rw [if_pos h2]
      simp only [List.cons_append, List.nil_append, List.append_assoc, skipCborElement]
      rw [show (32 * 3 + 24) % 32 = 24 from by omega,
          show (32 * 3 + 24) / 32 = 3 from by omega]
      norm_num [beNat]
    · rw [if_neg h2]
      by_cases h3 : s.length < 65536
      · rw [if_pos h3]
        simp only [List.cons_append, List.nil_append, List.append_assoc, skipCborElement]
        rw [show (32 * 3 + 25) % 32 = 25 from by omega,
            show (32 * 3 + 25) / 32 = 3 from by omega]
        norm_num [beNat]
        rw [show 256 * (s.length / 256 % 256) + s.length % 256 = s.length from by omega]
        exact ⟨by omega, List.drop_left s rest⟩
      · rw [if_neg h3]
        by_cases h4 : s.length < 4294967296
        · rw [if_pos h4]
          simp only [List.cons_append, List.nil_append, List.append_assoc, skipCborElement]
          rw [show (32 * 3 + 26) % 32 = 26 from by omega,
              show (32 * 3 + 26) / 32 = 3 from by omega]
          norm_num [beNat]
          rw [show 256 * (256 * (256 * (s.length / 16777216 % 256) + s.length / 65536 % 256) + s.length / 256 % 256) + s.length % 256 = s.length from by omega]
          exact ⟨by omega, List.drop_left s rest⟩
        · rw [if_neg h4]
          simp only [List.cons_append, List.nil_append, List.append_assoc, skipCborElement]
          rw [show (32 * 3 + 27) % 32 = 27 from by omega,
              show (32 * 3 + 27) / 32 = 3 from by omega]
          norm_num [beNat]
          rw [show 256 * (256 * (256 * (256 * (256 * (256 * (256 * (s.length / 72057594037927936 % 256) + s.length / 281474976710656 % 256) + s.length / 1099511627776 % 256) + s.length / 4294967296 % 256) + s.length / 16777216 % 256) + s.length / 65536 % 256) + s.length / 256 % 256) + s.length % 256 = s.length from by omega]
          exact ⟨by omega, List.drop_left s rest⟩

theorem parseEnvelopeStart_encode (msgType : List Nat) (ts e : Nat) (rest : List Nat)
    (hT : msgType.length ≤ 1) (hts : ts < 18446744073709551616)
    (he : e < 18446744073709551616) :
    parseEnvelopeStart (cbor_encode_array_open 9 ++ (cbor_encode_integer DTNEX_PROTOCOL_VERSION ++
      (cbor_encode_text_string msgType ++ (cbor_encode_integer ts ++
      (cbor_encode_integer e ++ rest))))) = some (msgType, ts, e, rest) := by
  unfold parseEnvelopeStart
  rw [cbor_decode_array_open_encode 9 _ (by norm_num)]
  norm_num
  rw [cbor_decode_integer_encode DTNEX_PROTOCOL_VERSION _
        (by norm_num [DTNEX_PROTOCOL_VERSION])]
  norm_num [DTNEX_PROTOCOL_VERSION]
  rw [cbor_decode_text_string_encode 1 msgType _ hT (by omega)]
  norm_num
  rw [cbor_decode_integer_encode ts _ hts]
  norm_num
  rw [cbor_decode_integer_encode e _ he]

theorem parseOriginFromNonce_encode (origin fromNode : Nat) (nonce rest : List Nat)
    (ho : origin < 18446744073709551616) (hf : fromNode < 18446744073709551616)
    (hn : nonce.length = DTNEX_NONCE_SIZE) :
    parseOriginFromNonce (cbor_encode_integer origin ++ (cbor_encode_integer fromNode ++
      (cbor_encode_byte_string nonce ++ rest))) = some (origin, fromNode, nonce, rest) := by
  unfold parseOriginFromNonce
  rw [cbor_decode_integer_encode origin _ ho]
  norm_num
  rw [cbor_decode_integer_encode fromNode _ hf]
  norm_num
  rw [cbor_decode_byte_string_encode DTNEX_NONCE_SIZE nonce rest (le_of_eq hn)
        (by rw [hn]; norm_num [DTNEX_NONCE_SIZE])]
  norm_num [hn]

theorem encodeCborContactMessage_eq (sha : List Nat → List Nat) (config : DtnexConfig)
    (contact : ContactInfo) (nonceRaw : List Nat) (currentTime : Nat) :
    encodeCborContactMessage sha config contact nonceRaw currentTime =
      contactEnvelopeBody config.nodeId config.contactLifetime contact nonceRaw currentTime ++
      cbor_encode_byte_string (calculateHmac sha
        (contactEnvelopeBody config.nodeId config.contactLifetime contact nonceRaw currentTime)
        config.presSharedNetworkKey) := rfl

theorem encodeCborMetadataMessage_eq (sha : List Nat → List Nat) (config : DtnexConfig)
    (m : StructuredMetadata) (nonceRaw : List Nat) (currentTime : Nat) :
    encodeCborMetadataMessage sha config m nonceRaw currentTime =
      metadataEnvelopeBody config.nodeId config.contactLifetime m nonceRaw currentTime ++
      cbor_encode_byte_string (calculateHmac sha
        (metadataEnvelopeBody config.nodeId config.contactLifetime m nonceRaw currentTime)
        config.presSharedNetworkKey) := by
  unfold encodeCborMetadataMessage metadataEnvelopeBody
  by_cases h : m.latitude ≠ 0 ∧ m.longitude ≠ 0
  · rw [if_pos h]
  · rw [if_neg h]

theorem parseMacField_encode (mac rest : List Nat) (h : mac.length = DTNEX_HMAC_SIZE) :
    parseMacField (cbor_encode_byte_string mac ++ rest) = some (mac, rest) := by
  have h8 : mac.length = 8 := h
  unfold cbor_encode_byte_string cborEncodeHead
  rw [h8]
  norm_num
  simp only [List.cons_append, List.nil_append, List.append_assoc, parseMacField]
  norm_num [DTNEX_HMAC_SIZE]
  refine ⟨by simp [h8], ?_, ?_⟩
  · rw [show (8 : Nat) = mac.length from by omega, List.take_left]
  · rw [show (8 : Nat) = mac.length from by omega, List.drop_left]

theorem toInt32_mod (n : Nat) : toInt32 (n % 4294967296) = toInt32 n := by
  unfold toInt32
  rw [Nat.mod_mod_of_dvd _ (dvd_refl _)]

theorem parseDataSection_contact_encode (a b d origin : Nat) (rest : List Nat)
    (ha : a < 4294967296) (hb : b < 4294967296) (hd : d < 4294967296) :
    parseDataSection typeContactBytes origin
      (cbor_encode_array_open 3 ++ (cbor_encode_integer a ++ (cbor_encode_integer b ++
       (cbor_encode_integer d ++ rest)))) =
      some (some (.contact ⟨a, b, d % 65536⟩), rest) := by
  rw [show cbor_encode_array_open 3 = [131] from rfl]
  simp only [List.cons_append, List.nil_append, List.append_assoc, parseDataSection]
  norm_num
  rw [manualDecodeCborInteger_encode a _ (by omega)]
  norm_num
  rw [manualDecodeCborInteger_encode b _ (by omega)]
  norm_num
  rw [manualDecodeCborInteger_encode d _ (by omega)]
  norm_num [Nat.mod_eq_of_lt ha, Nat.mod_eq_of_lt hb]
  simp only [skipNElements, skipCborElement_encode_integer a _ (by omega),
    skipCborElement_encode_integer b _ (by omega),
    skipCborElement_encode_integer d _ (by omega)]

theorem parseDataSection_metadata3_encode (nid origin : Nat) (nm ct rest : List Nat)
    (hnid : nid < 4294967296) (hnm : nm.length < 63) (hct : ct.length < 127) :
    parseDataSection typeMetadataBytes origin
      (cbor_encode_array_open 3 ++ (cbor_encode_integer nid ++ (cbor_encode_text_string nm ++
       (cbor_encode_text_string ct ++ rest)))) =
      some (some (.metadata ⟨nid, nm, ct, 0, 0⟩), rest) := by
  rw [show cbor_encode_array_open 3 = [131] from rfl]
  simp only [List.cons_append, List.nil_append, List.append_assoc, parseDataSection]
  norm_num [typeMetadataBytes, typeContactBytes, MAX_NODE_NAME_LENGTH,
    MAX_CONTACT_INFO_LENGTH]
  rw [manualDecodeCborInteger_encode nid _ (by omega)]
  norm_num [Nat.mod_eq_of_lt hnid]
  rw [manualDecodeCborString_encode 63 nm _ hnm (by omega)]
  norm_num
  rw [manualDecodeCborString_encode 127 ct _ hct (by omega)]
  norm_num
  simp only [skipNElements, skipCborElement_encode_integer nid _ (by omega),
    skipCborElement_encode_text nm _ (by omega),
    skipCborElement_encode_text ct _ (by omega)]

theorem parseDataSection_metadata5_encode (nid origin la lo : Nat) (nm ct rest : List Nat)
    (hnid : nid < 4294967296) (hnm : nm.length < 63) (hct : ct.length < 127)
    (hla : la < 18446744073709551616) (hlo : lo < 18446744073709551616) :
    parseDataSection typeMetadataBytes origin
      (cbor_encode_array_open 5 ++ (cbor_encode_integer nid ++ (cbor_encode_text_string nm ++
       (cbor_encode_text_string ct ++ (cbor_encode_integer la ++ (cbor_encode_integer lo ++
       rest)))))) =
      some (some (.metadata ⟨nid, nm, ct, toInt32 la, toInt32 lo⟩), rest) := by
  rw [show cbor_encode_array_open 5 = [133] from rfl]
  simp only [List.cons_append, List.nil_append, List.append_assoc, parseDataSection]
  norm_num [typeMetadataBytes, typeContactBytes, MAX_NODE_NAME_LENGTH,
    MAX_CONTACT_INFO_LENGTH]
  rw [manualDecodeCborInteger_encode nid _ (by omega)]
  norm_num [Nat.mod_eq_of_lt hnid]
  rw [manualDecodeCborString_encode 63 nm _ hnm (by omega)]
  norm_num
  rw [manualDecodeCborString_encode 127 ct _ hct (by omega)]
  norm_num
  rw [manualDecodeCborInteger_encode la _ hla]
  norm_num
  rw [manualDecodeCborInteger_encode lo _ hlo]
  norm_num [toInt32_mod]
  simp only [skipNElements, skipCborElement_encode_integer nid _ (by omega),
    skipCborElement_encode_text nm _ (by omega),
    skipCborElement_encode_text ct _ (by omega),
    skipCborElement_encode_integer la _ (by omega),
    skipCborElement_encode_integer lo _ (by omega)]

theorem decodeCborMessage_contactBody (sha : List Nat → List Nat)
    (localId contactLifetimeR : Nat) (key : List Nat)
    (router : RouterCall → Int) (plans : List Nat) (freshNonce : Nat → List Nat)
    (now origin lifetime ts : Nat) (contact : ContactInfo) (nonceRaw : List Nat)
    (cache : List NonceCacheEntry) (rec : List Nat)
    (ha : contact.nodeA < 4294967296) (hb : contact.nodeB < 4294967296)
    (hd : contact.duration < 4294967296)
    (hts : ts + lifetime < 18446744073709551616)
    (ho : origin < 18446744073709551616)
    (hrec : rec.length = DTNEX_HMAC_SIZE)
    (hexp : ¬ now > ts + lifetime)
    (hdup : isNonceDuplicate cache (mkNonce nonceRaw) origin = false) :
    decodeCborMessage sha ⟨localId, contactLifetimeR, key⟩ router plans freshNonce now cache
      (contactEnvelopeBody origin lifetime contact nonceRaw ts ++
       cbor_encode_byte_string rec) =
      if verifyHmac sha (contactEnvelopeBody origin lifetime contact nonceRaw ts) rec key then
        ⟨.processedContact, addNonceToCache cache (mkNonce nonceRaw) origin now,
         (processCborContactMessage sha ⟨localId, contactLifetimeR, key⟩ router plans freshNonce
            (mkNonce nonceRaw) ts (ts + lifetime) origin origin
            ⟨contact.nodeA, contact.nodeB, contact.duration % 65536⟩).1, [],
         (processCborContactMessage sha ⟨localId, contactLifetimeR, key⟩ router plans freshNonce
            (mkNonce nonceRaw) ts (ts + lifetime) origin origin
            ⟨contact.nodeA, contact.nodeB, contact.duration % 65536⟩).2⟩
      else ⟨.authFailed, cache, [], [], []⟩ := by
  have hts' : ts < 18446744073709551616 := by omega
  have h1 : parseEnvelopeStart (contactEnvelopeBody origin lifetime contact nonceRaw ts ++
      cbor_encode_byte_string rec) =
      some (typeContactBytes, ts, ts + lifetime,
        cbor_encode_integer origin ++ (cbor_encode_integer origin ++
        (cbor_encode_byte_string (mkNonce nonceRaw) ++ (cbor_encode_array_open 3 ++
        (cbor_encode_integer contact.nodeA ++ (cbor_encode_integer contact.nodeB ++
        (cbor_encode_integer contact.duration ++ cbor_encode_byte_string rec))))))) := by
    unfold contactEnvelopeBody
    simp only [List.append_assoc]
    exact parseEnvelopeStart_encode typeContactBytes ts (ts + lifetime) _
      (by norm_num [typeContactBytes]) hts' hts
  have h2 : parseOriginFromNonce (cbor_encode_integer origin ++ (cbor_encode_integer origin ++
      (cbor_encode_byte_string (mkNonce nonceRaw) ++ (cbor_encode_array_open 3 ++
      (cbor_encode_integer contact.nodeA ++ (cbor_encode_integer contact.nodeB ++
      (cbor_encode_integer contact.duration ++ cbor_encode_byte_string rec))))))) =
      some (origin, origin, mkNonce nonceRaw,
        cbor_encode_array_open 3 ++ (cbor_encode_integer contact.nodeA ++
        (cbor_encode_integer contact.nodeB ++ (cbor_encode_integer contact.duration ++
        cbor_encode_byte_string rec)))) :=
    parseOriginFromNonce_encode origin origin (mkNonce nonceRaw) _ ho ho (mkNonce_length nonceRaw)
  have h3 : parseDataSection typeContactBytes origin
      (cbor_encode_array_open 3 ++ (cbor_encode_integer contact.nodeA ++
      (cbor_encode_integer contact.nodeB ++ (cbor_encode_integer contact.duration ++
      cbor_encode_byte_string rec)))) =
      some (some (.contact ⟨contact.nodeA, contact.nodeB, contact.duration % 65536⟩),
        cbor_encode_byte_string rec) :=
    parseDataSection_contact_encode contact.nodeA contact.nodeB contact.duration origin _ ha hb hd
  have h4 : parseMacField (cbor_encode_byte_string rec) = some (rec, []) := by
    have h5 := parseMacField_encode rec [] hrec
    rwa [List.append_nil] at h5
  have hmac : (contactEnvelopeBody origin lifetime contact nonceRaw ts ++
      cbor_encode_byte_string rec).take
      ((contactEnvelopeBody origin lifetime contact nonceRaw ts ++
        cbor_encode_byte_string rec).length - (cbor_encode_byte_string rec).length) =
      contactEnvelopeBody origin lifetime contact nonceRaw ts := by
    rw [show (contactEnvelopeBody origin lifetime contact nonceRaw ts ++
        cbor_encode_byte_string rec).length - (cbor_encode_byte_string rec).length =
        (contactEnvelopeBody origin lifetime contact nonceRaw ts).length from by
      simp only [List.length_append]; omega]
    exact List.take_left _ _
  unfold decodeCborMessage
  rw [h1]
  simp only [if_neg hexp]
  rw [h2]
  simp only [hdup, Bool.false_eq_true, if_false]
  rw [h3]
  simp only []
  rw [h4]
  simp only [hmac]

theorem toInt32_uvastOfInt (i : Int) (h1 : -2147483648 ≤ i) (h2 : i < 2147483648) :
    toInt32 (uvastOfInt i) = i := by
  unfold toInt32 uvastOfInt
  omega

theorem decodeCborMessage_metadataBody (sha : List Nat → List Nat)
    (localId contactLifetimeR : Nat) (key : List Nat)
    (router : RouterCall → Int) (plans : List Nat) (freshNonce : Nat → List Nat)
    (now origin lifetime ts : Nat) (m : StructuredMetadata) (nonceRaw : List Nat)
    (cache : List NonceCacheEntry) (rec : List Nat)
    (hnid : m.nodeId < 4294967296)
    (hnm : m.name.length < 63) (hct : m.contact.length < 127)
    (hla1 : -2147483648 ≤ m.latitude) (hla2 : m.latitude < 2147483648)
    (hlo1 : -2147483648 ≤ m.longitude) (hlo2 : m.longitude < 2147483648)
    (hts : ts + lifetime < 18446744073709551616)
    (ho : origin < 18446744073709551616)
    (hrec : rec.length = DTNEX_HMAC_SIZE)
    (hexp : ¬ now > ts + lifetime)
    (hdup : isNonceDuplicate cache (mkNonce nonceRaw) origin = false) :
    decodeCborMessage sha ⟨localId, contactLifetimeR, key⟩ router plans freshNonce now cache
      (metadataEnvelopeBody origin lifetime m nonceRaw ts ++
       cbor_encode_byte_string rec) =
      if verifyHmac sha (metadataEnvelopeBody origin lifetime m nonceRaw ts) rec key then
        ⟨.processedMetadata, addNonceToCache cache (mkNonce nonceRaw) origin now, [],
         (processCborMetadataMessage sha ⟨localId, contactLifetimeR, key⟩ plans freshNonce
            (mkNonce nonceRaw) ts (ts + lifetime) origin origin
            (if m.latitude ≠ 0 ∧ m.longitude ≠ 0 then m
             else ⟨m.nodeId, m.name, m.contact, 0, 0⟩)).1,
         (processCborMetadataMessage sha ⟨localId, contactLifetimeR, key⟩ plans freshNonce
            (mkNonce nonceRaw) ts (ts + lifetime) origin origin
            (if m.latitude ≠ 0 ∧ m.longitude ≠ 0 then m
             else ⟨m.nodeId, m.name, m.contact, 0, 0⟩)).2⟩
      else ⟨.authFailed, cache, [], [], []⟩ := by
  have hts' : ts < 18446744073709551616 := by omega
  have hlat64 : uvastOfInt m.latitude < 18446744073709551616 := by
    unfold uvastOfInt; omega
  have hlon64 : uvastOfInt m.longitude < 18446744073709551616 := by
    unfold uvastOfInt; omega
  have h4 : parseMacField (cbor_encode_byte_string rec) = some (rec, []) := by
    have h5 := parseMacField_encode rec [] hrec
    rwa [List.append_nil] at h5
  have hmac : (metadataEnvelopeBody origin lifetime m nonceRaw ts ++
      cbor_encode_byte_string rec).take
      ((metadataEnvelopeBody origin lifetime m nonceRaw ts ++
        cbor_encode_byte_string rec).length - (cbor_encode_byte_string rec).length) =
      metadataEnvelopeBody origin lifetime m nonceRaw ts := by
    rw [show (metadataEnvelopeBody origin lifetime m nonceRaw ts ++
        cbor_encode_byte_string rec).length - (cbor_encode_byte_string rec).length =
        (metadataEnvelopeBody origin lifetime m nonceRaw ts).length from by
      simp only [List.length_append]; omega]
    exact List.take_left _ _
  by_cases hgps : m.latitude ≠ 0 ∧ m.longitude ≠ 0
  · have h1 : parseEnvelopeStart (metadataEnvelopeBody origin lifetime m nonceRaw ts ++
        cbor_encode_byte_string rec) =
        some (typeMetadataBytes, ts, ts + lifetime,
          cbor_encode_integer origin ++ (cbor_encode_integer origin ++
          (cbor_encode_byte_string (mkNonce nonceRaw) ++ (cbor_encode_array_open 5 ++
          (cbor_encode_integer m.nodeId ++ (cbor_encode_text_string m.name ++
          (cbor_encode_text_string m.contact ++ (cbor_encode_integer (uvastOfInt m.latitude) ++
          (cbor_encode_integer (uvastOfInt m.longitude) ++
           cbor_encode_byte_string rec))))))))) := by
      unfold metadataEnvelopeBody
      rw [if_pos hgps]
      simp only [List.append_assoc]
      exact parseEnvelopeStart_encode typeMetadataBytes ts (ts + lifetime) _
        (by norm_num [typeMetadataBytes]) hts' hts
    have h2 : parseOriginFromNonce (cbor_encode_integer origin ++ (cbor_encode_integer origin ++
        (cbor_encode_byte_string (mkNonce nonceRaw) ++ (cbor_encode_array_open 5 ++
        (cbor_encode_integer m.nodeId ++ (cbor_encode_text_string m.name ++
        (cbor_encode_text_string m.contact ++ (cbor_encode_integer (uvastOfInt m.latitude) ++
        (cbor_encode_integer (uvastOfInt m.longitude) ++
         cbor_encode_byte_string rec))))))))) =
        some (origin, origin, mkNonce nonceRaw,
          cbor_encode_array_open 5 ++ (cbor_encode_integer m.nodeId ++
          (cbor_encode_text_string m.name ++ (cbor_encode_text_string m.contact ++
          (cbor_encode_integer (uvastOfInt m.latitude) ++
          (cbor_encode_integer (uvastOfInt m.longitude) ++
           cbor_encode_byte_string rec)))))) :=
      parseOriginFromNonce_encode origin origin (mkNonce nonceRaw) _ ho ho
        (mkNonce_length nonceRaw)
    have h3 : parseDataSection typeMetadataBytes origin
        (cbor_encode_array_open 5 ++ (cbor_encode_integer m.nodeId ++
        (cbor_encode_text_string m.name ++ (cbor_encode_text_string m.contact ++
        (cbor_encode_integer (uvastOfInt m.latitude) ++
        (cbor_encode_integer (uvastOfInt m.longitude) ++
         cbor_encode_byte_string rec)))))) =
        some (some (.metadata ⟨m.nodeId, m.name, m.contact, m.latitude, m.longitude⟩),
          cbor_encode_byte_string rec) := by
      rw [parseDataSection_metadata5_encode m.nodeId origin (uvastOfInt m.latitude)
            (uvastOfInt m.longitude) m.name m.contact _ hnid hnm hct hlat64 hlon64,
          toInt32_uvastOfInt m.latitude hla1 hla2,
          toInt32_uvastOfInt m.longitude hlo1 hlo2]
    unfold decodeCborMessage
    rw [h1]
    simp only [if_neg hexp]
    rw [h2]
    simp only [hdup, Bool.false_eq_true, if_false]
    rw [h3]
    simp only []
    rw [h4]
    simp only [hmac, if_pos hgps]
  · have h1 : parseEnvelopeStart (metadataEnvelopeBody origin lifetime m nonceRaw ts ++
        cbor_encode_byte_string rec) =
        some (typeMetadataBytes, ts, ts + lifetime,
          cbor_encode_integer origin ++ (cbor_encode_integer origin ++
          (cbor_encode_byte_string (mkNonce nonceRaw) ++ (cbor_encode_array_open 3 ++
          (cbor_encode_integer m.nodeId ++ (cbor_encode_text_string m.name ++
          (cbor_encode_text_string m.contact ++ cbor_encode_byte_string rec))))))) := by
      unfold metadataEnvelopeBody
      rw [if_neg hgps]
      simp only [List.append_assoc]
      exact parseEnvelopeStart_encode typeMetadataBytes ts (ts + lifetime) _
        (by norm_num [typeMetadataBytes]) hts' hts
    have h2 : parseOriginFromNonce (cbor_encode_integer origin ++ (cbor_encode_integer origin ++
        (cbor_encode_byte_string (mkNonce nonceRaw) ++ (cbor_encode_array_open 3 ++
        (cbor_encode_integer m.nodeId ++ (cbor_encode_text_string m.name ++
        (cbor_encode_text_string m.contact ++ cbor_encode_byte_string rec))))))) =
        some (origin, origin, mkNonce nonceRaw,
          cbor_encode_array_open 3 ++ (cbor_encode_integer m.nodeId ++
          (cbor_encode_text_string m.name ++ (cbor_encode_text_string m.contact ++
           cbor_encode_byte_string rec)))) :=
      parseOriginFromNonce_encode origin origin (mkNonce nonceRaw) _ ho ho
        (mkNonce_length nonceRaw)
    have h3 : parseDataSection typeMetadataBytes origin
        (cbor_encode_array_open 3 ++ (cbor_encode_integer m.nodeId ++
        (cbor_encode_text_string m.name ++ (cbor_encode_text_string m.contact ++
         cbor_encode_byte_string rec)))) =
        some (some (.metadata ⟨m.nodeId, m.name, m.contact, 0, 0⟩),
          cbor_encode_byte_string rec) :=
      parseDataSection_metadata3_encode m.nodeId origin m.name m.contact _ hnid hnm hct
    unfold decodeCborMessage
    rw [h1]
    simp only [if_neg hexp]
    rw [h2]
    simp only [hdup, Bool.false_eq_true, if_false]
    rw [h3]
    simp only []
    rw [h4]
    simp only [hmac, if_neg hgps]

theorem verifyHmac_self (sha : List Nat → List Nat) (message key : List Nat) :
    verifyHmac sha message (calculateHmac sha message key) key = true := by
  simp [verifyHmac]

theorem isNonceDuplicate_addNonceToCache (cache : List NonceCacheEntry)
    (nonce : List Nat) (origin now : Nat) :
    isNonceDuplicate (addNonceToCache cache nonce origin now) nonce origin = true := by
  unfold isNonceDuplicate addNonceToCache
  by_cases h : cache.length < MAX_HASH_CACHE
  · rw [if_pos h]
    simp [List.any_append]
  · rw [if_neg h]
    simp [List.any_append]

theorem decodeCborMessage_contactBody_expired (sha : List Nat → List Nat)
    (localId contactLifetimeR : Nat) (key : List Nat)
    (router : RouterCall → Int) (plans : List Nat) (freshNonce : Nat → List Nat)
    (now origin lifetime ts : Nat) (contact : ContactInfo) (nonceRaw : List Nat)
    (cache : List NonceCacheEntry) (rec : List Nat)
    (hts : ts + lifetime < 18446744073709551616)
    (hexp : now > ts + lifetime) :
    decodeCborMessage sha ⟨localId, contactLifetimeR, key⟩ router plans freshNonce now cache
      (contactEnvelopeBody origin lifetime contact nonceRaw ts ++
       cbor_encode_byte_string rec) = ⟨.expired, cache, [], [], []⟩ := by
  have hts' : ts < 18446744073709551616 := by omega
  have h1 : parseEnvelopeStart (contactEnvelopeBody origin lifetime contact nonceRaw ts ++
      cbor_encode_byte_string rec) =
      some (typeContactBytes, ts, ts + lifetime,
        cbor_encode_integer origin ++ (cbor_encode_integer origin ++
        (cbor_encode_byte_string (mkNonce nonceRaw) ++ (cbor_encode_array_open 3 ++
        (cbor_encode_integer contact.nodeA ++ (cbor_encode_integer contact.nodeB ++
        (cbor_encode_integer contact.duration ++ cbor_encode_byte_string rec))))))) := by
    unfold contactEnvelopeBody
    simp only [List.append_assoc]
    exact parseEnvelopeStart_encode typeContactBytes ts (ts + lifetime) _
      (by norm_num [typeContactBytes]) hts' hts
  unfold decodeCborMessage
  rw [h1]
  simp only [if_pos hexp]

/-- C4: replay idempotence.  For any byte string accepted by the inbound
handler (outcome processedContact or processedMetadata, which implies
its (origin, nonce) pair entered the replay cache at dtnex.c:2813), a
second delivery of the identical bytes against the resulting cache is
rejected at the replay check (dtnex.c:2565-2569): no router calls, no
metadata-store update, no outbound forwards, cache unchanged. -/
theorem C4_replay_second_delivery (sha : List Nat → List Nat) (config : DtnexConfig)
    (router : RouterCall → Int) (plans : List Nat) (freshNonce : Nat → List Nat)
    (now : Nat) (cache : List NonceCacheEntry) (buffer : List Nat)
    (h : (decodeCborMessage sha config router plans freshNonce now cache buffer).outcome =
           .processedContact ∨
         (decodeCborMessage sha config router plans freshNonce now cache buffer).outcome =
           .processedMetadata) :
    decodeCborMessage sha config router plans freshNonce now
      ((decodeCborMessage sha config router plans freshNonce now cache buffer).cache) buffer =
      ⟨.replay,
       (decodeCborMessage sha config router plans freshNonce now cache buffer).cache,
       [], [], []⟩ := by
  unfold decodeCborMessage at h ⊢
  cases hps : parseEnvelopeStart buffer with
  | none => rw [hps] at h; simp at h
  | some v =>
    obtain ⟨msgType, timestamp, expireTime, r1⟩ := v
    rw [hps] at h
    dsimp only at h ⊢
    by_cases hexp : now > expireTime
    · rw [if_pos hexp] at h; simp at h
    · rw [if_neg hexp] at h ⊢
      cases hofn : parseOriginFromNonce r1 with
      | none => rw [hofn] at h; simp at h
      | some v2 =>
        obtain ⟨origin, fromNode, nonce, r2⟩ := v2
        rw [hofn] at h
        dsimp only at h ⊢
        by_cases hdup : isNonceDuplicate cache nonce origin = true
        · rw [if_pos hdup] at h; simp at h
        · rw [if_neg hdup] at h ⊢
          cases hds : parseDataSection msgType origin r2 with
          | none => rw [hds] at h; simp at h
          | some v3 =>
            obtain ⟨ext, r3⟩ := v3
            rw [hds] at h
            dsimp only at h ⊢
            cases hmf : parseMacField r3 with
            | none => rw [hmf] at h; simp at h
            | some v4 =>
              obtain ⟨receivedHmac, r4⟩ := v4
              rw [hmf] at h
              dsimp only at h ⊢
              by_cases hv : verifyHmac sha
                  (buffer.take (buffer.length - r3.length)) receivedHmac
                  config.presSharedNetworkKey = true
              · rw [if_pos hv] at h ⊢
                cases ext with
                | none => simp at h
                | some e =>
                  cases e with
                  | contact c =>
                    dsimp only at h ⊢
                    rw [if_neg hexp]
                    dsimp only
                    rw [if_pos (isNonceDuplicate_addNonceToCache cache nonce origin now)]
                  | metadata mm =>
                    dsimp only at h ⊢
                    rw [if_neg hexp]
                    dsimp only
                    rw [if_pos (isNonceDuplicate_addNonceToCache cache nonce origin now)]
              · rw [if_neg hv] at h; simp at h

theorem forwardContact_enumFrom_dests (sha : List Nat → List Nat) (config : DtnexConfig)
    (freshNonce : Nat → List Nat) (timestamp expireTime origin fromNode : Nat)
    (contact : ContactInfo) (plans : List Nat) :
    ∀ k : Nat,
      ((plans.enumFrom k).filterMap (fun p =>
        if p.2 == origin || p.2 == fromNode || p.2 == config.nodeId then none
        else some (⟨p.2, forwardContactEnvelopeBytes sha config timestamp expireTime origin
                      (mkNonce (freshNonce p.1)) contact⟩ : Send))).map (fun s => s.dest) =
      plans.filter (fun n => !(n == origin || n == fromNode || n == config.nodeId)) := by
  induction plans with
  | nil => intro k; simp
  | cons a as ih =>
    intro k
    simp only [List.enumFrom, List.filterMap_cons, List.filter_cons]
    by_cases hc : (a == origin || a == fromNode || a == config.nodeId) = true
    · rw [if_pos hc]
      simp only [hc, Bool.not_true]
      rw [if_neg (by simp)]
      exact ih (k + 1)
    · rw [if_neg hc]
      simp only [List.map_cons]
      rw [ih (k + 1)]
      simp only [Bool.not_eq_true'] at hc
      simp [hc]

theorem forwardMetadata_enumFrom_dests (sha : List Nat → List Nat) (config : DtnexConfig)
    (freshNonce : Nat → List Nat) (timestamp expireTime origin fromNode : Nat)
    (metadata : StructuredMetadata) (plans : List Nat) :
    ∀ k : Nat,
      ((plans.enumFrom k).filterMap (fun p =>
        if p.2 == origin || p.2 == fromNode || p.2 == config.nodeId then none
        else some (⟨p.2, forwardMetadataEnvelopeBytes sha config timestamp expireTime origin
                      (mkNonce (freshNonce p.1)) metadata⟩ : Send))).map (fun s => s.dest) =
      plans.filter (fun n => !(n == origin || n == fromNode || n == config.nodeId)) := by
  induction plans with
  | nil => intro k; simp
  | cons a as ih =>
    intro k
    simp only [List.enumFrom, List.filterMap_cons, List.filter_cons]
    by_cases hc : (a == origin || a == fromNode || a == config.nodeId) = true
    · rw [if_pos hc]
      simp only [hc, Bool.not_true]
      rw [if_neg (by simp)]
      exact ih (k + 1)
    · rw [if_neg hc]
      simp only [List.map_cons]
      rw [ih (k + 1)]
      simp only [Bool.not_eq_true'] at hc
      simp [hc]

theorem forwardCborContactMessage_dests (sha : List Nat → List Nat) (config : DtnexConfig)
    (plans : List Nat) (freshNonce : Nat → List Nat) (originalNonce : List Nat)
    (timestamp expireTime origin fromNode : Nat) (contact : ContactInfo) :
    (forwardCborContactMessage sha config plans freshNonce originalNonce
       timestamp expireTime origin fromNode contact).map (fun s => s.dest) =
      plans.filter (fun n => !(n == origin || n == fromNode || n == config.nodeId)) := by
  unfold forwardCborContactMessage
  rw [show plans.enum = plans.enumFrom 0 from rfl]
  exact forwardContact_enumFrom_dests sha config freshNonce timestamp expireTime origin
    fromNode contact plans 0

theorem forwardCborMetadataMessage_dests (sha : List Nat → List Nat) (config : DtnexConfig)
    (plans : List Nat) (freshNonce : Nat → List Nat) (originalNonce : List Nat)
    (timestamp expireTime origin fromNode : Nat) (metadata : StructuredMetadata) :
    (forwardCborMetadataMessage sha config plans freshNonce originalNonce
       timestamp expireTime origin fromNode metadata).map (fun s => s.dest) =
      plans.filter (fun n => !(n == origin || n == fromNode || n == config.nodeId)) := by
  unfold forwardCborMetadataMessage
  rw [show plans.enum = plans.enumFrom 0 from rfl]
  exact forwardMetadata_enumFrom_dests sha config freshNonce timestamp expireTime origin
    fromNode metadata plans 0

theorem length_filter_eq_card_sdiff (plans : List Nat) (x y z : Nat) (h : plans.Nodup) :
    (plans.filter (fun n => !(n == x || n == y || n == z))).length =
      (plans.toFinset \ {x, y, z}).card := by
  rw [← List.toFinset_card_of_nodup (h.filter _)]
  congr 1
  ext n
  simp [List.mem_filter, Finset.mem_sdiff, and_comm, Finset.mem_insert]
  tauto

theorem replaceFirstMetadata_length (nodeId : Nat) (md : List Nat)
    (store : List NodeMetadata) :
    (replaceFirstMetadata nodeId md store).length = store.length := by
  induction store with
  | nil => rfl
  | cons e rest ih =>
    unfold replaceFirstMetadata
    by_cases he : (e.nodeId == nodeId) = true
    · rw [if_pos he]
      simp
    · rw [if_neg he]
      simp [ih]

theorem find_replaceFirstMetadata (store : List NodeMetadata) (nodeId : Nat)
    (md : List Nat) (h : store.any (fun e => e.nodeId == nodeId) = true) :
    (replaceFirstMetadata nodeId md store).find? (fun e => e.nodeId == nodeId) =
      some ⟨nodeId, md.take (MAX_METADATA_LENGTH - 1)⟩ := by
  induction store with
  | nil => simp at h
  | cons e rest ih =>
    unfold replaceFirstMetadata
    by_cases he : (e.nodeId == nodeId) = true
    · rw [if_pos he]
      have hid : e.nodeId = nodeId := by
        simpa using he
      rw [List.find?_cons_of_pos _ (by simp [hid])]
      simp [hid]
    · rw [if_neg he]
      rw [List.find?_cons_of_neg _ (by simp at he ⊢; exact he)]
      apply ih
      simp only [List.any_cons, he, Bool.false_or] at h
      exact h

theorem getNodeMetadata_absent (store : List NodeMetadata) (nodeId : Nat)
    (h : store.any (fun e => e.nodeId == nodeId) = false) :
    getNodeMetadata store nodeId = none := by
  unfold getNodeMetadata
  rw [List.find?_eq_none.mpr]
  · rfl
  · intro e he
    intro hc
    have h2 : store.any (fun e => e.nodeId == nodeId) = true :=
      List.any_eq_true.mpr ⟨e, he, hc⟩
    rw [h] at h2
    exact Bool.noConfusion h2

set_option maxRecDepth 10000

/-- C1: the spec demands that a forwarder preserve the received nonce
(F.origin = E.origin, F.nonce = E.nonce, F.from = local id, nothing else
changed).  The code violates the nonce clause: forwardCborContactMessage
generates a fresh nonce in every loop iteration (dtnex.c:3022-3023,
3033) and never reads its originalNonce parameter.  At the concrete
input below (local id 850, neighbors 900/901/902, received envelope
with origin 900, from 900, nonce [1,2,3], fresh draws all [9,9,9]) both
forwarded envelopes decode to origin 900 (preserved) and from 850
(rewritten) but nonce [9,9,9], not the received [1,2,3]. -/
theorem C1_forward_regenerates_nonce :
    ((forwardCborContactMessage (fun _ => List.replicate 32 0) ⟨850, 60, [1]⟩
        [900, 901, 902] (fun _ => [9, 9, 9]) [1, 2, 3] 100 160 900 900
        ⟨900, 901, 60⟩).map (fun s =>
          (parseEnvelopeStart s.payload).bind (fun q =>
            (parseOriginFromNonce q.2.2.2).map (fun w => (w.1, w.2.1, w.2.2.1))))) =
      [some (900, 850, [9, 9, 9]), some (900, 850, [9, 9, 9])] ∧
    ([9, 9, 9] : List Nat) ≠ [1, 2, 3] := by
  constructor
  · decide
  · decide

/-- C2 counterexample: with a router answering AlreadyExists (code 9) to
the 900 to 901 contact insertion, the engine still issues both contact
insertions but issues NO insert_range call, contradicting the claim
that the two range insertions are still issued. -/
theorem C2_counterexample :
    (processCborContactMessage (fun _ => List.replicate 32 0) ⟨850, 60, [1]⟩
        (fun c => match c with
          | RouterCall.insertContact _ _ _ 900 901 _ => (9 : Int)
          | _ => 0)
        [] (fun _ => []) [1, 2, 3] 100 3700 900 900 ⟨900, 901, 60⟩).1 =
      [RouterCall.insertContact 1 100 3700 900 901 100000,
       RouterCall.insertContact 1 100 3700 901 900 100000] ∧
    RouterCall.insertRange 100 3700 900 901 1 ∉
      (processCborContactMessage (fun _ => List.replicate 32 0) ⟨850, 60, [1]⟩
        (fun c => match c with
          | RouterCall.insertContact _ _ _ 900 901 _ => (9 : Int)
          | _ => 0)
        [] (fun _ => []) [1, 2, 3] 100 3700 900 900 ⟨900, 901, 60⟩).1 := by
  constructor
  · decide
  · decide

/-- C2 as amended: a non-self contact message always issues both
directional insert_contact calls over [timestamp, timestamp +
duration * 60] (a failure of the first never aborts the second), and
the two insert_range calls with OWLT 1 s are issued exactly when BOTH
contact insertions returned 0; an AlreadyExists (9) or Duplicate (11)
response from either contact insertion suppresses the range
insertions (dtnex.c:2893). -/
theorem C2_amended (sha : List Nat → List Nat) (config : DtnexConfig)
    (router : RouterCall → Int) (plans : List Nat) (freshNonce : Nat → List Nat)
    (nonce : List Nat) (timestamp expireTime origin fromNode : Nat)
    (contact : ContactInfo) (h : origin ≠ config.nodeId) :
    (processCborContactMessage sha config router plans freshNonce nonce
       timestamp expireTime origin fromNode contact).1 =
      RouterCall.insertContact 1 timestamp (timestamp + contact.duration * 60)
        contact.nodeA contact.nodeB 100000 ::
      RouterCall.insertContact 1 timestamp (timestamp + contact.duration * 60)
        contact.nodeB contact.nodeA 100000 ::
      (if router (RouterCall.insertContact 1 timestamp (timestamp + contact.duration * 60)
            contact.nodeA contact.nodeB 100000) = 0 ∧
          router (RouterCall.insertContact 1 timestamp (timestamp + contact.duration * 60)
            contact.nodeB contact.nodeA 100000) = 0 then
        [RouterCall.insertRange timestamp (timestamp + contact.duration * 60)
           contact.nodeA contact.nodeB 1,
         RouterCall.insertRange timestamp (timestamp + contact.duration * 60)
           contact.nodeB contact.nodeA 1]
      else []) := by
  unfold processCborContactMessage
  rw [if_neg (by simp [h])]

/-- C2 amended witness at a concrete input with an honest router. -/
theorem C2_amended_witness :
    (processCborContactMessage (fun _ => List.replicate 32 0) ⟨850, 60, [1]⟩
       (fun _ => 0) [] (fun _ => []) [1, 2, 3] 100 3700 900 900 ⟨900, 901, 60⟩).1 =
      RouterCall.insertContact 1 100 (100 + 60 * 60) 900 901 100000 ::
      RouterCall.insertContact 1 100 (100 + 60 * 60) 901 900 100000 ::
      (if (0 : Int) = 0 ∧ (0 : Int) = 0 then
        [RouterCall.insertRange 100 (100 + 60 * 60) 900 901 1,
         RouterCall.insertRange 100 (100 + 60 * 60) 901 900 1]
      else []) :=
  C2_amended (fun _ => List.replicate 32 0) ⟨850, 60, [1]⟩ (fun _ => 0) []
    (fun _ => []) [1, 2, 3] 100 3700 900 900 ⟨900, 901, 60⟩ (by decide)

/-- C6: the claim says encode_metadata never writes an envelope longer
than MAX_CBOR_BUFFER = 128 bytes.  The code enforces no such bound: at
a name of 63 bytes and a contact string of 127 bytes (both within the
capacities MAX_NODE_NAME_LENGTH - 1 and MAX_CONTACT_INFO_LENGTH - 1
accepted by parseNodeMetadata), the serialized envelope exceeds 128
bytes, overflowing the 128-byte buffers every caller passes. -/
theorem C6_metadata_envelope_oversize :
    MAX_CBOR_BUFFER <
      (encodeCborMetadataMessage (fun _ => List.replicate 32 0)
        ⟨268484800, 3600, [111, 112, 101, 110]⟩
        ⟨268484800, List.replicate 63 97, List.replicate 127 98, 0, 0⟩
        [1, 2, 3] 1700000000).length := by decide

/-- C8 counterexample: with the pair ([1,2,3], origin 7) already cached,
addNonceToCache is not a no-op: it appends a second entry for the same
pair (the C function has no membership check; only its caller checks
isNonceDuplicate first). -/
theorem C8_counterexample :
    isNonceDuplicate [⟨[1, 2, 3], 7, 0⟩] [1, 2, 3] 7 = true ∧
    addNonceToCache [⟨[1, 2, 3], 7, 0⟩] [1, 2, 3] 7 5 ≠ [⟨[1, 2, 3], 7, 0⟩] ∧
    (addNonceToCache [⟨[1, 2, 3], 7, 0⟩] [1, 2, 3] 7 5).length = 2 := by
  refine ⟨by decide, by decide, by decide⟩

/-- C8 as amended: addNonceToCache appends unconditionally (presence of
the pair is checked separately by the engine via isNonceDuplicate
before it ever inserts); below capacity it appends, at capacity
MAX_HASH_CACHE it evicts exactly the oldest (first, earliest-inserted)
entry and appends, and the size never exceeds MAX_HASH_CACHE. -/
theorem C8_amended (cache : List NonceCacheEntry) (nonce : List Nat) (origin now : Nat)
    (h : cache.length ≤ MAX_HASH_CACHE) :
    (addNonceToCache cache nonce origin now).length ≤ MAX_HASH_CACHE ∧
    (cache.length < MAX_HASH_CACHE →
      addNonceToCache cache nonce origin now = cache ++ [⟨nonce, origin, now⟩]) ∧
    (cache.length = MAX_HASH_CACHE →
      addNonceToCache cache nonce origin now = cache.tail ++ [⟨nonce, origin, now⟩] ∧
      (addNonceToCache cache nonce origin now).length = MAX_HASH_CACHE) := by
  unfold addNonceToCache
  by_cases hlt : cache.length < MAX_HASH_CACHE
  · rw [if_pos hlt]
    exact ⟨by simp; omega, fun _ => rfl, fun he => absurd he (by omega)⟩
  · rw [if_neg hlt]
    refine ⟨?_, fun hl => absurd hl hlt, fun he => ⟨rfl, ?_⟩⟩
    · simp only [MAX_HASH_CACHE] at h hlt ⊢
      simp only [List.length_append, List.length_tail, List.length_cons,
        List.length_nil]
      omega
    · simp only [MAX_HASH_CACHE] at h hlt ⊢
      simp only [List.length_append, List.length_tail, List.length_cons,
        List.length_nil]
      omega

/-- C8 amended witness: a full cache of MAX_HASH_CACHE identical entries
evicts its head on insertion and stays at capacity. -/
theorem C8_amended_witness :
    (addNonceToCache (List.replicate MAX_HASH_CACHE ⟨[0, 0, 0], 0, 0⟩) [1, 2, 3] 7 5).length ≤
      MAX_HASH_CACHE ∧
    ((List.replicate MAX_HASH_CACHE (⟨[0, 0, 0], 0, 0⟩ : NonceCacheEntry)).length <
        MAX_HASH_CACHE →
      addNonceToCache (List.replicate MAX_HASH_CACHE ⟨[0, 0, 0], 0, 0⟩) [1, 2, 3] 7 5 =
        List.replicate MAX_HASH_CACHE ⟨[0, 0, 0], 0, 0⟩ ++ [⟨[1, 2, 3], 7, 5⟩]) ∧
    ((List.replicate MAX_HASH_CACHE (⟨[0, 0, 0], 0, 0⟩ : NonceCacheEntry)).length =
        MAX_HASH_CACHE →
      addNonceToCache (List.replicate MAX_HASH_CACHE ⟨[0, 0, 0], 0, 0⟩) [1, 2, 3] 7 5 =
        (List.replicate MAX_HASH_CACHE (⟨[0, 0, 0], 0, 0⟩ : NonceCacheEntry)).tail ++
          [⟨[1, 2, 3], 7, 5⟩] ∧
      (addNonceToCache (List.replicate MAX_HASH_CACHE ⟨[0, 0, 0], 0, 0⟩) [1, 2, 3] 7 5).length =
        MAX_HASH_CACHE) :=
  C8_amended (List.replicate MAX_HASH_CACHE ⟨[0, 0, 0], 0, 0⟩) [1, 2, 3] 7 5
    (by simp)

/-- C9: the metadata store never exceeds MAX_PLANS = 100 entries; a put
for a node already present replaces that node's record (and keeps the
size); a put for a new node against a full store is a silent no-op and
a subsequent get returns absence (updateNodeMetadata,
dtnex.c:678-705). -/
theorem C9_metadata_store_bound (store : List NodeMetadata) (nodeId : Nat) (md : List Nat)
    (hb : store.length ≤ MAX_PLANS) :
    (updateNodeMetadata store nodeId md).length ≤ MAX_PLANS ∧
    (store.any (fun e => e.nodeId == nodeId) = true →
      getNodeMetadata (updateNodeMetadata store nodeId md) nodeId =
        some (md.take (MAX_METADATA_LENGTH - 1)) ∧
      (updateNodeMetadata store nodeId md).length = store.length) ∧
    (store.any (fun e => e.nodeId == nodeId) = false → store.length = MAX_PLANS →
      updateNodeMetadata store nodeId md = store ∧
      getNodeMetadata (updateNodeMetadata store nodeId md) nodeId = none) := by
  unfold updateNodeMetadata
  by_cases hin : store.any (fun e => e.nodeId == nodeId) = true
  · rw [if_pos hin]
    refine ⟨by rw [replaceFirstMetadata_length]; exact hb,
      fun _ => ⟨?_, replaceFirstMetadata_length _ _ _⟩,
      fun hno => absurd hin (by simp [hno])⟩
    unfold getNodeMetadata
    rw [find_replaceFirstMetadata store nodeId md hin]
    rfl
  · rw [if_neg hin]
    have hin' : store.any (fun e => e.nodeId == nodeId) = false := by
      simpa using hin
    by_cases hlen : store.length < MAX_PLANS
    · rw [if_pos hlen]
      exact ⟨by simp; omega, fun ht => absurd ht hin,
        fun _ hfull => absurd hfull (by omega)⟩
    · rw [if_neg hlen]
      exact ⟨hb, fun ht => absurd ht hin,
        fun _ _ => ⟨rfl, getNodeMetadata_absent store nodeId hin'⟩⟩

/-- C9 witness at a concrete store holding one entry. -/
theorem C9_metadata_store_bound_witness :
    (updateNodeMetadata [⟨7, [1]⟩] 7 [2, 2]).length ≤ MAX_PLANS ∧
    (([⟨7, [1]⟩] : List NodeMetadata).any (fun e => e.nodeId == 7) = true →
      getNodeMetadata (updateNodeMetadata [⟨7, [1]⟩] 7 [2, 2]) 7 =
        some (([2, 2] : List Nat).take (MAX_METADATA_LENGTH - 1)) ∧
      (updateNodeMetadata [⟨7, [1]⟩] 7 [2, 2]).length = ([⟨7, [1]⟩] : List NodeMetadata).length) ∧
    (([⟨7, [1]⟩] : List NodeMetadata).any (fun e => e.nodeId == 7) = false →
      ([⟨7, [1]⟩] : List NodeMetadata).length = MAX_PLANS →
      updateNodeMetadata [⟨7, [1]⟩] 7 [2, 2] = [⟨7, [1]⟩] ∧
      getNodeMetadata (updateNodeMetadata [⟨7, [1]⟩] 7 [2, 2]) 7 = none) :=
  C9_metadata_store_bound [⟨7, [1]⟩] 7 [2, 2] (by decide)

/-- C3 counterexample: an envelope whose expire_time equals the current
time is NOT discarded: decodeCborMessage (whose check at dtnex.c:2533
is now > expireTime) processes it and issues router calls.  Here the
envelope is created at time 100 with lifetime 60 (expire 160) and
delivered at now = 160. -/
theorem C3_counterexample :
    (decodeCborMessage (fun _ => List.replicate 32 0) ⟨5, 60, [1]⟩ (fun _ => 0) []
        (fun _ => []) 160 []
        (encodeCborContactMessage (fun _ => List.replicate 32 0) ⟨9, 60, [1]⟩ ⟨9, 8, 1⟩
          [1, 2, 3] 100)).outcome = Outcome.processedContact ∧
    (decodeCborMessage (fun _ => List.replicate 32 0) ⟨5, 60, [1]⟩ (fun _ => 0) []
        (fun _ => []) 160 []
        (encodeCborContactMessage (fun _ => List.replicate 32 0) ⟨9, 60, [1]⟩ ⟨9, 8, 1⟩
          [1, 2, 3] 100)).routerCalls ≠ [] := by
  constructor
  · decide
  · decide

/-- C3 as amended: the expiry check discards exactly the envelopes whose
expire_time has passed (now > expire_time): an envelope with
expire_time = now is accepted and processed (router calls are issued),
and an envelope with expire_time = now - 1 is silently discarded with
no router calls, no store updates and no forwards. -/
theorem C3_amended_expiry_boundary (sha : List Nat → List Nat)
    (localId lifetimeR origin lifetime ts : Nat) (key nonceRaw : List Nat)
    (router : RouterCall → Int) (plans : List Nat) (freshNonce : Nat → List Nat)
    (cache : List NonceCacheEntry) (contact : ContactInfo)
    (ha : contact.nodeA < 4294967296) (hb : contact.nodeB < 4294967296)
    (hd : contact.duration < 4294967296)
    (hts : ts + lifetime < 18446744073709551616)
    (ho : origin < 18446744073709551616)
    (hdup : isNonceDuplicate cache (mkNonce nonceRaw) origin = false)
    (hself : origin ≠ localId) :
    ((decodeCborMessage sha ⟨localId, lifetimeR, key⟩ router plans freshNonce
        (ts + lifetime) cache
        (encodeCborContactMessage sha ⟨origin, lifetime, key⟩ contact nonceRaw ts)).outcome =
        Outcome.processedContact ∧
      (decodeCborMessage sha ⟨localId, lifetimeR, key⟩ router plans freshNonce
        (ts + lifetime) cache
        (encodeCborContactMessage sha ⟨origin, lifetime, key⟩ contact nonceRaw ts)).routerCalls ≠
        []) ∧
    decodeCborMessage sha ⟨localId, lifetimeR, key⟩ router plans freshNonce
      (ts + lifetime + 1) cache
      (encodeCborContactMessage sha ⟨origin, lifetime, key⟩ contact nonceRaw ts) =
      ⟨Outcome.expired, cache, [], [], []⟩ := by
  rw [encodeCborContactMessage_eq]
  have hmaster := decodeCborMessage_contactBody sha localId lifetimeR key router plans
    freshNonce (ts + lifetime) origin lifetime ts contact nonceRaw cache
    (calculateHmac sha (contactEnvelopeBody origin lifetime contact nonceRaw ts) key)
    ha hb hd hts ho (calculateHmac_length sha _ key) (by omega) hdup
  rw [verifyHmac_self, if_pos rfl] at hmaster
  constructor
  · rw [hmaster]
    constructor
    · rfl
    · unfold processCborContactMessage
      rw [if_neg (by simp [hself])]
      simp
  · exact decodeCborMessage_contactBody_expired sha localId lifetimeR key router plans
      freshNonce (ts + lifetime + 1) origin lifetime ts contact nonceRaw cache
      (calculateHmac sha (contactEnvelopeBody origin lifetime contact nonceRaw ts) key)
      hts (by omega)

/-- C3 amended witness at concrete values (origin 9, local 5, timestamp
100, lifetime 60, delivery at 160 and at 161). -/
theorem C3_amended_expiry_boundary_witness :
    ((decodeCborMessage (fun _ => List.replicate 32 0) ⟨5, 60, [1]⟩ (fun _ => 0) []
        (fun _ => []) (100 + 60) []
        (encodeCborContactMessage (fun _ => List.replicate 32 0) ⟨9, 60, [1]⟩ ⟨9, 8, 1⟩
          [1, 2, 3] 100)).outcome = Outcome.processedContact ∧
      (decodeCborMessage (fun _ => List.replicate 32 0) ⟨5, 60, [1]⟩ (fun _ => 0) []
        (fun _ => []) (100 + 60) []
        (encodeCborContactMessage (fun _ => List.replicate 32 0) ⟨9, 60, [1]⟩ ⟨9, 8, 1⟩
          [1, 2, 3] 100)).routerCalls ≠ []) ∧
    decodeCborMessage (fun _ => List.replicate 32 0) ⟨5, 60, [1]⟩ (fun _ => 0) []
      (fun _ => []) (100 + 60 + 1) []
      (encodeCborContactMessage (fun _ => List.replicate 32 0) ⟨9, 60, [1]⟩ ⟨9, 8, 1⟩
        [1, 2, 3] 100) = ⟨Outcome.expired, [], [], [], []⟩ :=
  C3_amended_expiry_boundary (fun _ => List.replicate 32 0) 5 60 9 60 100 [1] [1, 2, 3]
    (fun _ => 0) [] (fun _ => []) [] ⟨9, 8, 1⟩ (by decide) (by decide) (by decide)
    (by decide) (by decide) (by decide) (by decide)

/-- C4 witness: concrete first delivery accepted at time 160, identical
second delivery rejected as a replay with no effects. -/
theorem C4_replay_second_delivery_witness :
    decodeCborMessage (fun _ => List.replicate 32 0) ⟨5, 60, [1]⟩ (fun _ => 0) []
      (fun _ => []) 160
      ((decodeCborMessage (fun _ => List.replicate 32 0) ⟨5, 60, [1]⟩ (fun _ => 0) []
        (fun _ => []) 160 []
        (encodeCborContactMessage (fun _ => List.replicate 32 0) ⟨9, 60, [1]⟩ ⟨9, 8, 1⟩
          [1, 2, 3] 100)).cache)
      (encodeCborContactMessage (fun _ => List.replicate 32 0) ⟨9, 60, [1]⟩ ⟨9, 8, 1⟩
        [1, 2, 3] 100) =
      ⟨Outcome.replay,
       (decodeCborMessage (fun _ => List.replicate 32 0) ⟨5, 60, [1]⟩ (fun _ => 0) []
        (fun _ => []) 160 []
        (encodeCborContactMessage (fun _ => List.replicate 32 0) ⟨9, 60, [1]⟩ ⟨9, 8, 1⟩
          [1, 2, 3] 100)).cache,
       [], [], []⟩ :=
  C4_replay_second_delivery (fun _ => List.replicate 32 0) ⟨5, 60, [1]⟩ (fun _ => 0) []
    (fun _ => []) 160 []
    (encodeCborContactMessage (fun _ => List.replicate 32 0) ⟨9, 60, [1]⟩ ⟨9, 8, 1⟩
      [1, 2, 3] 100) (Or.inl (by decide))

theorem calculateHmac_eq_take (sha : List Nat → List Nat)
    (hsha : ∀ l, (sha l).length = 32) (m k : List Nat) :
    calculateHmac sha m k = (calculateHmacFull sha m k).take 8 := by
  unfold calculateHmac
  have h32 : (calculateHmacFull sha m k).length = 32 := by
    unfold calculateHmacFull
    exact hsha _
  rw [takePad_of_le (by rw [h32]; norm_num [DTNEX_HMAC_SIZE])]
  rfl

/-- C5: the transmitted MAC field of an encoded envelope (contact or
metadata) is exactly the first 8 bytes of the HMAC-SHA-256 over the
serialized envelope excluding the final MAC field, and the inbound
handler recomputes the MAC over that same byte range and passes the
authentication check if and only if the received 8 bytes equal the
recomputed truncation (calculateHmac dtnex.c:1659-1697, verification
dtnex.c:2802-2808). -/
theorem C5_mac_truncation_and_verification (sha : List Nat → List Nat)
    (hsha : ∀ l, (sha l).length = 32)
    (localId lifetimeR origin lifetime ts now : Nat) (key nonceRaw : List Nat)
    (router : RouterCall → Int) (plans : List Nat) (freshNonce : Nat → List Nat)
    (cache : List NonceCacheEntry) (contact : ContactInfo) (m : StructuredMetadata)
    (rec : List Nat)
    (ha : contact.nodeA < 4294967296) (hb : contact.nodeB < 4294967296)
    (hd : contact.duration < 4294967296)
    (hts : ts + lifetime < 18446744073709551616)
    (ho : origin < 18446744073709551616)
    (hrec : rec.length = 8)
    (hexp : ¬ now > ts + lifetime)
    (hdup : isNonceDuplicate cache (mkNonce nonceRaw) origin = false) :
    encodeCborContactMessage sha ⟨origin, lifetime, key⟩ contact nonceRaw ts =
      contactEnvelopeBody origin lifetime contact nonceRaw ts ++
      cbor_encode_byte_string
        ((calculateHmacFull sha (contactEnvelopeBody origin lifetime contact nonceRaw ts)
          key).take 8) ∧
    encodeCborMetadataMessage sha ⟨origin, lifetime, key⟩ m nonceRaw ts =
      metadataEnvelopeBody origin lifetime m nonceRaw ts ++
      cbor_encode_byte_string
        ((calculateHmacFull sha (metadataEnvelopeBody origin lifetime m nonceRaw ts)
          key).take 8) ∧
    ((calculateHmacFull sha (contactEnvelopeBody origin lifetime contact nonceRaw ts)
        key).take 8).length = 8 ∧
    ((decodeCborMessage sha ⟨localId, lifetimeR, key⟩ router plans freshNonce now cache
        (contactEnvelopeBody origin lifetime contact nonceRaw ts ++
         cbor_encode_byte_string rec)).outcome ≠ Outcome.authFailed ↔
      rec = (calculateHmacFull sha
        (contactEnvelopeBody origin lifetime contact nonceRaw ts) key).take 8) := by
  have hfull32 : ∀ mm kk : List Nat, (calculateHmacFull sha mm kk).length = 32 := by
    intro mm kk
    unfold calculateHmacFull
    exact hsha _
  refine ⟨?_, ?_, ?_, ?_⟩
  · rw [encodeCborContactMessage_eq, calculateHmac_eq_take sha hsha]
  · rw [encodeCborMetadataMessage_eq, calculateHmac_eq_take sha hsha]
  · rw [List.length_take, hfull32]
    norm_num
  · have hmaster := decodeCborMessage_contactBody sha localId lifetimeR key router plans
      freshNonce now origin lifetime ts contact nonceRaw cache rec
      ha hb hd hts ho hrec hexp hdup
    rw [hmaster]
    by_cases hv : verifyHmac sha (contactEnvelopeBody origin lifetime contact nonceRaw ts)
        rec key = true
    · rw [if_pos hv]
      unfold verifyHmac at hv
      have heq : calculateHmac sha (contactEnvelopeBody origin lifetime contact nonceRaw ts)
          key = rec := by
        exact eq_of_beq hv
      constructor
      · intro _
        rw [← heq, calculateHmac_eq_take sha hsha]
      · intro _
        simp
    · rw [if_neg hv]
      unfold verifyHmac at hv
      constructor
      · intro hfalse
        exact absurd rfl hfalse
      · intro hr
        exfalso
        apply hv
        rw [hr, ← calculateHmac_eq_take sha hsha]
        exact beq_self_eq_true _

/-- C5 witness: conjunct four of the claim at concrete values, with a
deliberately wrong MAC field of eight 1-bytes. -/
theorem C5_mac_truncation_and_verification_witness :
    ((decodeCborMessage (fun _ => List.replicate 32 0) ⟨5, 60, [1]⟩ (fun _ => 0) []
        (fun _ => []) 160 []
        (contactEnvelopeBody 9 60 ⟨9, 8, 1⟩ [1, 2, 3] 100 ++
         cbor_encode_byte_string (List.replicate 8 1))).outcome ≠ Outcome.authFailed ↔
      List.replicate 8 1 = (calculateHmacFull (fun _ => List.replicate 32 0)
        (contactEnvelopeBody 9 60 ⟨9, 8, 1⟩ [1, 2, 3] 100) [1]).take 8) :=
  (C5_mac_truncation_and_verification (fun _ => List.replicate 32 0) (fun _ => by simp)
    5 60 9 60 100 160 [1] [1, 2, 3] (fun _ => 0) [] (fun _ => []) [] ⟨9, 8, 1⟩
    ⟨9, [], [], 0, 0⟩ (List.replicate 8 1) (by decide) (by decide) (by decide)
    (by decide) (by decide) (by simp) (by omega) (by decide)).2.2.2

/-- C10: an originated metadata envelope carries the GPS pair exactly when
both scaled coordinates are nonzero (encodeCborMetadataMessage checks
latitude and longitude against 0 conjunctively, dtnex.c:1856-1870): if
both are nonzero the receiver recovers the full record including both
coordinates, and if either is zero the envelope carries the 3-element
payload so the receiver recovers the record with BOTH coordinates
absent (zero), even though coordinates were configured. -/
theorem C10_gps_payload_condition (sha : List Nat → List Nat)
    (localId lifetimeR origin lifetime ts now : Nat) (key nonceRaw : List Nat)
    (router : RouterCall → Int) (plans : List Nat) (freshNonce : Nat → List Nat)
    (cache : List NonceCacheEntry) (m : StructuredMetadata)
    (hnid : m.nodeId < 4294967296)
    (hnm : m.name.length < 63) (hct : m.contact.length < 127)
    (hla1 : -2147483648 ≤ m.latitude) (hla2 : m.latitude < 2147483648)
    (hlo1 : -2147483648 ≤ m.longitude) (hlo2 : m.longitude < 2147483648)
    (hts : ts + lifetime < 18446744073709551616)
    (ho : origin < 18446744073709551616)
    (hexp : ¬ now > ts + lifetime)
    (hdup : isNonceDuplicate cache (mkNonce nonceRaw) origin = false)
    (hself : origin ≠ localId) :
    (decodeCborMessage sha ⟨localId, lifetimeR, key⟩ router plans freshNonce now cache
      (encodeCborMetadataMessage sha ⟨origin, lifetime, key⟩ m nonceRaw ts)).outcome =
      Outcome.processedMetadata ∧
    (m.latitude ≠ 0 ∧ m.longitude ≠ 0 →
      (decodeCborMessage sha ⟨localId, lifetimeR, key⟩ router plans freshNonce now cache
        (encodeCborMetadataMessage sha ⟨origin, lifetime, key⟩ m nonceRaw ts)).metaUpdates =
        [(m.nodeId, m)]) ∧
    (m.latitude = 0 ∨ m.longitude = 0 →
      (decodeCborMessage sha ⟨localId, lifetimeR, key⟩ router plans freshNonce now cache
        (encodeCborMetadataMessage sha ⟨origin, lifetime, key⟩ m nonceRaw ts)).metaUpdates =
        [(m.nodeId, ⟨m.nodeId, m.name, m.contact, 0, 0⟩)]) := by
  rw [encodeCborMetadataMessage_eq]
  have hmaster := decodeCborMessage_metadataBody sha localId lifetimeR key router plans
    freshNonce now origin lifetime ts m nonceRaw cache
    (calculateHmac sha (metadataEnvelopeBody origin lifetime m nonceRaw ts) key)
    hnid hnm hct hla1 hla2 hlo1 hlo2 hts ho (calculateHmac_length sha _ key) hexp hdup
  rw [verifyHmac_self, if_pos rfl] at hmaster
  rw [hmaster]
  refine ⟨rfl, ?_, ?_⟩
  · intro hgps
    rw [if_pos hgps]
    unfold processCborMetadataMessage
    rw [if_neg (by simp [hself])]
  · intro hz
    rw [if_neg (by tauto)]
    unfold processCborMetadataMessage
    rw [if_neg (by simp [hself])]

/-- C10 witness at a concrete metadata record with latitude 59334591 and
longitude 0 (either-zero case) packaged with the both-nonzero clause
vacuous free: delivered from origin 9 to local node 5. -/
theorem C10_gps_payload_condition_witness :
    (decodeCborMessage (fun _ => List.replicate 32 0) ⟨5, 60, [1]⟩ (fun _ => 0) []
      (fun _ => []) 160 []
      (encodeCborMetadataMessage (fun _ => List.replicate 32 0) ⟨9, 60, [1]⟩
        ⟨9, [71], [64], 59334591, 0⟩ [1, 2, 3] 100)).outcome =
      Outcome.processedMetadata ∧
    ((59334591 : Int) ≠ 0 ∧ (0 : Int) ≠ 0 →
      (decodeCborMessage (fun _ => List.replicate 32 0) ⟨5, 60, [1]⟩ (fun _ => 0) []
        (fun _ => []) 160 []
        (encodeCborMetadataMessage (fun _ => List.replicate 32 0) ⟨9, 60, [1]⟩
          ⟨9, [71], [64], 59334591, 0⟩ [1, 2, 3] 100)).metaUpdates =
        [(9, ⟨9, [71], [64], 59334591, 0⟩)]) ∧
    ((59334591 : Int) = 0 ∨ (0 : Int) = 0 →
      (decodeCborMessage (fun _ => List.replicate 32 0) ⟨5, 60, [1]⟩ (fun _ => 0) []
        (fun _ => []) 160 []
        (encodeCborMetadataMessage (fun _ => List.replicate 32 0) ⟨9, 60, [1]⟩
          ⟨9, [71], [64], 59334591, 0⟩ [1, 2, 3] 100)).metaUpdates =
        [(9, ⟨9, [71], [64], 0, 0⟩)]) :=
  C10_gps_payload_condition (fun _ => List.replicate 32 0) 5 60 9 60 100 160 [1]
    [1, 2, 3] (fun _ => 0) [] (fun _ => []) [] ⟨9, [71], [64], 59334591, 0⟩
    (by decide) (by decide) (by decide) (by decide) (by decide) (by decide) (by decide)
    (by decide) (by decide) (by omega) (by decide) (by decide)

/-- C7: for every accepted envelope the forward step emits exactly one
outbound message per neighbor in the snapshot excluding the origin, the
immediate sender and the local node: the destination list equals the
plan list filtered by that exclusion, and for a duplicate-free snapshot
the number of sends is the cardinality of N minus the excluded set,
for both the contact and the metadata forwarder
(dtnex.c:3006-3012, 3077-3083). -/
theorem C7_forward_filter (sha : List Nat → List Nat) (config : DtnexConfig)
    (plans : List Nat) (freshNonce : Nat → List Nat) (originalNonce : List Nat)
    (timestamp expireTime origin fromNode : Nat) (contact : ContactInfo)
    (metadata : StructuredMetadata) (h : plans.Nodup) :
    (forwardCborContactMessage sha config plans freshNonce originalNonce
       timestamp expireTime origin fromNode contact).map (fun s => s.dest) =
      plans.filter (fun n => !(n == origin || n == fromNode || n == config.nodeId)) ∧
    (forwardCborMetadataMessage sha config plans freshNonce originalNonce
       timestamp expireTime origin fromNode metadata).map (fun s => s.dest) =
      plans.filter (fun n => !(n == origin || n == fromNode || n == config.nodeId)) ∧
    (forwardCborContactMessage sha config plans freshNonce originalNonce
       timestamp expireTime origin fromNode contact).length =
      (plans.toFinset \ {origin, fromNode, config.nodeId}).card ∧
    (forwardCborMetadataMessage sha config plans freshNonce originalNonce
       timestamp expireTime origin fromNode metadata).length =
      (plans.toFinset \ {origin, fromNode, config.nodeId}).card := by
  refine ⟨forwardCborContactMessage_dests sha config plans freshNonce originalNonce
      timestamp expireTime origin fromNode contact,
    forwardCborMetadataMessage_dests sha config plans freshNonce originalNonce
      timestamp expireTime origin fromNode metadata, ?_, ?_⟩
  · rw [show (forwardCborContactMessage sha config plans freshNonce originalNonce
        timestamp expireTime origin fromNode contact).length =
        ((forwardCborContactMessage sha config plans freshNonce originalNonce
          timestamp expireTime origin fromNode contact).map (fun s => s.dest)).length from
      (List.length_map _ _).symm]
    rw [forwardCborContactMessage_dests]
    exact length_filter_eq_card_sdiff plans origin fromNode config.nodeId h
  · rw [show (forwardCborMetadataMessage sha config plans freshNonce originalNonce
        timestamp expireTime origin fromNode metadata).length =
        ((forwardCborMetadataMessage sha config plans freshNonce originalNonce
          timestamp expireTime origin fromNode metadata).map (fun s => s.dest)).length from
      (List.length_map _ _).symm]
    rw [forwardCborMetadataMessage_dests]
    exact length_filter_eq_card_sdiff plans origin fromNode config.nodeId h

/-- C7 witness with neighbors 900, 901, 902, origin and sender 900, local
node 850: two outbound messages each. -/
theorem C7_forward_filter_witness :
    (forwardCborContactMessage (fun _ => List.replicate 32 0) ⟨850, 60, [1]⟩
       [900, 901, 902] (fun _ => [9, 9, 9]) [1, 2, 3] 100 160 900 900
       ⟨900, 901, 60⟩).map (fun s => s.dest) =
      ([900, 901, 902] : List Nat).filter
        (fun n => !(n == 900 || n == 900 || n == 850)) ∧
    (forwardCborMetadataMessage (fun _ => List.replicate 32 0) ⟨850, 60, [1]⟩
       [900, 901, 902] (fun _ => [9, 9, 9]) [1, 2, 3] 100 160 900 900
       ⟨900, [71], [64], 0, 0⟩).map (fun s => s.dest) =
      ([900, 901, 902] : List Nat).filter
        (fun n => !(n == 900 || n == 900 || n == 850)) ∧
    (forwardCborContactMessage (fun _ => List.replicate 32 0) ⟨850, 60, [1]⟩
       [900, 901, 902] (fun _ => [9, 9, 9]) [1, 2, 3] 100 160 900 900
       ⟨900, 901, 60⟩).length =
      (([900, 901, 902] : List Nat).toFinset \ {900, 900, 850}).card ∧
    (forwardCborMetadataMessage (fun _ => List.replicate 32 0) ⟨850, 60, [1]⟩
       [900, 901, 902] (fun _ => [9, 9, 9]) [1, 2, 3] 100 160 900 900
       ⟨900, [71], [64], 0, 0⟩).length =
      (([900, 901, 902] : List Nat).toFinset \ {900, 900, 850}).card :=
  C7_forward_filter (fun _ => List.replicate 32 0) ⟨850, 60, [1]⟩ [900, 901, 902]
    (fun _ => [9, 9, 9]) [1, 2, 3] 100 160 900 900 ⟨900, 901, 60⟩
    ⟨900, [71], [64], 0, 0⟩ (by decide)
